import Mathlib

/-!
Verification of the SYSCODE prediction pipeline
(backend/services/ml_service.py and backend/services/prediction_service.py).

The Python code is shallowly embedded: Python scalar values (floats, strings,
None) become the `Value` type, dicts become ordered association lists,
raising code returns `Except String`, and the mutable `MLService` object
becomes an explicit `MLState` record that functions take and return.
Machine floats are modelled by exact rationals; the claims under study are
about control flow, defaulting and threshold arithmetic, none of which
depends on rounding of binary floats.  Externally fitted estimators
(production pipelines, auto-trained models, the `StandardScaler`) are opaque
pickled objects in the source and are modelled as opaque function parameters;
`LabelEncoder` is simple enough to be modelled concretely.
-/

set_option autoImplicit false
set_option maxRecDepth 2048

deriving instance DecidableEq for Except

namespace SysCode

/-- A Python scalar value as it appears in request payloads and feature
dicts: a float/int (modelled as an exact rational), a string, or `None`. -/
inductive Value where
  | num : ℚ → Value
  | str : String → Value
  | none : Value
deriving DecidableEq, Repr

/-- Python truthiness of a `Value` (`0`, `""` and `None` are falsy). -/
def Value.truthy : Value → Bool
  | .num q => q ≠ 0
  | .str s => s ≠ ""
  | .none => false

/-- Rendering used for `str(x)` / f-string interpolation of a `Value`.
For strings this is exact; for numbers it is an approximation of CPython
float formatting (no claim depends on the rendered digits). -/
def Value.pyToString : Value → String
  | .num q => toString q
  | .str s => s
  | .none => "None"

/-- A Python dict with string keys, as an ordered association list
(first binding of a key wins, mirroring dict lookup). -/
abbrev Dict := List (String × Value)

/-- Python lookup d.get(k) returning an `Option`: the first binding of `k`, if any. -/
def dget? : Dict → String → Option Value
  | [], _ => Option.none
  | (k0, v0) :: rest, k => if k0 = k then Option.some v0 else dget? rest k

/-- Python lookup with default, d.get(k, dflt). -/
def dgetD (d : Dict) (k : String) (dflt : Value) : Value :=
  (dget? d k).getD dflt

/-- Membership test, k in d. -/
def dmem (d : Dict) (k : String) : Bool :=
  (dget? d k).isSome

/-- Assignment d[k] = v: overwrite the binding in place or append a new one,
preserving insertion order like a Python dict. -/
def dset : Dict → String → Value → Dict
  | [], k, v => [(k, v)]
  | (k0, v0) :: rest, k, v =>
      if k0 = k then (k, v) :: rest else (k0, v0) :: dset rest k v

/-- The presence test (k in d and d[k] is not None) that both confidence
calculators use for completeness counting. -/
def presentNotNone (d : Dict) (k : String) : Bool :=
  match dget? d k with
  | Option.some v => v ≠ Value.none
  | Option.none => false

/-- Parse an unsigned run of decimal digits. -/
def digitsToNat? : List Char → Option ℕ
  | [] => Option.none
  | cs =>
    if cs.all Char.isDigit then
      Option.some (cs.foldl (fun a c => a * 10 + (c.toNat - 48)) 0)
    else
      Option.none

/-- Parse the digit part of a decimal literal: `12`, `12.5`, `12.`, `.5`. -/
def parseUnsigned? (cs : List Char) : Option ℚ :=
  match cs.splitOn '.' with
  | [intPart] =>
      (digitsToNat? intPart).map (fun n => (n : ℚ))
  | [intPart, fracPart] =>
      if intPart.isEmpty && fracPart.isEmpty then Option.none
      else
        let ip : Option ℕ := if intPart.isEmpty then Option.some 0 else digitsToNat? intPart
        let fp : Option ℕ := if fracPart.isEmpty then Option.some 0 else digitsToNat? fracPart
        match ip, fp with
        | Option.some i, Option.some f =>
            Option.some ((i : ℚ) + (f : ℚ) / ((10 : ℚ) ^ fracPart.length))
        | _, _ => Option.none
  | _ => Option.none

/-- Parse a decimal string the way `float(s)` accepts ordinary literals:
optional surrounding whitespace, optional sign, digits with an optional
fractional part.  (Exotic inputs such as exponents, `inf` or `nan` are not
produced by this system and are treated as unparseable.) -/
def pyParseFloat (s : String) : Option ℚ :=
  match (s.trim.toList : List Char) with
  | [] => Option.none
  | '-' :: rest => (parseUnsigned? rest).map (fun q => -q)
  | '+' :: rest => parseUnsigned? rest
  | cs => parseUnsigned? cs

/-- Python `float(v)`: numbers pass through, numeric-looking strings are
parsed, anything else raises (`ValueError` / `TypeError`). -/
def pyFloat : Value → Except String ℚ
  | .num q => Except.ok q
  | .str s =>
      match pyParseFloat s with
      | Option.some q => Except.ok q
      | Option.none => Except.error "ValueError: could not convert string to float"
  | .none => Except.error "TypeError: float() argument must be a string or a number"

/-- Python float division: raises `ZeroDivisionError` on a zero denominator. -/
def pyDiv (a b : ℚ) : Except String ℚ :=
  if b = 0 then Except.error "ZeroDivisionError: float division by zero"
  else Except.ok (a / b)

/-- Interpret a `Value` as a number for an arithmetic/comparison context;
strings and `None` raise `TypeError` there, as in Python. -/
def asNum : Value → Except String ℚ
  | .num q => Except.ok q
  | .str _ => Except.error "TypeError: unsupported operand or comparison with str"
  | .none => Except.error "TypeError: unsupported operand or comparison with NoneType"

/-- Comparison v > c against a float threshold. -/
def pyGTnum (v : Value) (c : ℚ) : Except String Bool := do
  let q ← asNum v
  Except.ok (decide (c < q))

/-- Comparison v < c against a float threshold. -/
def pyLTnum (v : Value) (c : ℚ) : Except String Bool := do
  let q ← asNum v
  Except.ok (decide (q < c))

/-- Comparison v >= c against a float threshold. -/
def pyGEnum (v : Value) (c : ℚ) : Except String Bool := do
  let q ← asNum v
  Except.ok (decide (c ≤ q))

/-- Comparison v <= c against a float threshold. -/
def pyLEnum (v : Value) (c : ℚ) : Except String Bool := do
  let q ← asNum v
  Except.ok (decide (q ≤ c))

/-- Python min(a, b) on floats (ties keep the first argument). -/
def pyMinQ (a b : ℚ) : ℚ := if b < a then b else a

/-- Python max(a, b) on floats (ties keep the first argument). -/
def pyMaxQ (a b : ℚ) : ℚ := if a < b then b else a

/-- Python `max(a, b)` on two values (numbers compare numerically, strings
lexicographically, mixed types raise `TypeError`). -/
def pyMax2 : Value → Value → Except String Value
  | .num a, .num b => Except.ok (.num (pyMaxQ a b))
  | .str a, .str b => Except.ok (.str (if a < b then b else a))
  | _, _ => Except.error "TypeError: unorderable types in max()"

/-- Round-half-to-even to an integer, the rounding CPython `round` uses. -/
def bankersRound (q : ℚ) : ℤ :=
  if q - (⌊q⌋ : ℚ) < 1/2 then ⌊q⌋
  else if 1/2 < q - (⌊q⌋ : ℚ) then ⌊q⌋ + 1
  else if ⌊q⌋ % 2 = 0 then ⌊q⌋ else ⌊q⌋ + 1

/-- Python round(q, 1) on exact rationals. -/
def pyRound1 (q : ℚ) : ℚ :=
  ((bankersRound (10 * q) : ℤ) : ℚ) / 10

/-- Generic association-list lookup (used for rows, frames and registries). -/
def aget? {α : Type} : List (String × α) → String → Option α
  | [], _ => Option.none
  | (k0, v0) :: rest, k => if k0 = k then Option.some v0 else aget? rest k

/-- Generic association-list assignment, preserving insertion order. -/
def aset {α : Type} : List (String × α) → String → α → List (String × α)
  | [], k, v => [(k, v)]
  | (k0, v0) :: rest, k, v =>
      if k0 = k then (k, v) :: rest else (k0, v0) :: aset rest k v

/-- Indexing a prediction array, arr[i]; raises IndexError out of range. -/
def pyIdx (xs : List ℚ) (i : ℕ) : Except String ℚ :=
  match xs.get? i with
  | Option.some v => Except.ok v
  | Option.none => Except.error "IndexError: index out of bounds"

/-! ## Risk and confidence assessors (ml_service.py 536-721) -/

/-- Points contributed by the cost-overrun prediction in `_assess_risk`
(3/2/1/0 at thresholds more than 20/10/5). -/
def overrun_points (c : ℚ) : ℕ :=
  if 20 < c then 3 else if 10 < c then 2 else if 5 < c then 1 else 0

/-- Points contributed by the delay prediction in `_assess_risk`
(3/2/1/0 at thresholds more than 6/3/1). -/
def delay_points (d : ℚ) : ℕ :=
  if 6 < d then 3 else if 3 < d then 2 else if 1 < d then 1 else 0

/-- The accumulated risk score of `_assess_risk`. -/
def risk_score (c d : ℚ) : ℕ :=
  overrun_points c + delay_points d

/-- Categorisation of the risk score (at least 5 is High, at least 3 Medium). -/
def risk_level (c d : ℚ) : String :=
  if 5 ≤ risk_score c d then "High"
  else if 3 ≤ risk_score c d then "Medium"
  else "Low"

/-- MLService._assess_risk: reads cost_overrun_pct and delay_months from the
predictions dict (default 0) and classifies the accumulated score. -/
def assess_risk (predictions : Dict) : Except String String := do
  let c ← asNum (dgetD predictions "cost_overrun_pct" (Value.num 0))
  let d ← asNum (dgetD predictions "delay_months" (Value.num 0))
  Except.ok (risk_level c d)

/-- Rank of the ordered basic risk levels, Low below Medium below High. -/
def level_rank (s : String) : ℕ :=
  if s = "High" then 2 else if s = "Medium" then 1 else 0

/-- Key features whose presence drives the basic completeness score. -/
def key_features : List String :=
  ["Base_Cost_Cr", "Vendor_Reliability", "Material_Availability_Index",
   "Skilled_Manpower_pct", "Planned_Timeline_months"]

/-- MLService._calculate_confidence: completeness of five key features times
100, plus flat 5-point quality bonuses, capped at 100 and rounded. -/
def calculate_confidence (features : Dict) : Except String ℚ := do
  let comp : ℚ := ((key_features.filter (presentNotNone features)).length : ℚ)
  let base := comp / (key_features.length : ℚ) * 100
  let b1 ← pyGTnum (dgetD features "Vendor_Reliability" (Value.num 0)) (8/10)
  let b2 ← pyGTnum (dgetD features "Material_Availability_Index" (Value.num 0)) (8/10)
  let b3 ← pyLTnum (dgetD features "Historical_Delay_Count" (Value.num 0)) 3
  let adj : ℚ := (if b1 then 5 else 0) + (if b2 then 5 else 0) + (if b3 then 5 else 0)
  Except.ok (pyRound1 (pyMinQ 100 (base + adj)))

/-- Required input fields of the production confidence calculator. -/
def required_features_prod : List String :=
  ["projectType", "state", "baseCost", "plannedTimeline",
   "vendorReliability", "materialAvailability"]

/-- Tiered quality points: p1 at v at least t1, else p2 at t2, else p3 at t3,
else 0 (the elif ladders of `_calculate_production_confidence`). -/
def tierGE (v : Value) (t1 : ℚ) (p1 : ℚ) (t2 : ℚ) (p2 : ℚ) (t3 : ℚ) (p3 : ℚ) :
    Except String ℚ := do
  let q ← asNum v
  Except.ok (if t1 ≤ q then p1 else if t2 ≤ q then p2 else if t3 ≤ q then p3 else 0)

/-- Tiered quality points for at-most thresholds (env risk, historical delay). -/
def tierLE (v : Value) (t1 : ℚ) (p1 : ℚ) (t2 : ℚ) (p2 : ℚ) : Except String ℚ := do
  let q ← asNum v
  Except.ok (if q ≤ t1 then p1 else if q ≤ t2 then p2 else 0)

/-- The 5-point geographic bonus: awarded iff both latitude and longitude are
present and truthy (so a 0 coordinate, an empty string or None gets nothing). -/
def geo_bonus (features : Dict) : ℚ :=
  if (dgetD features "latitude" Value.none).truthy
      && (dgetD features "longitude" Value.none).truthy then 5 else 0

/-- MLService._calculate_production_confidence: completeness ratio over six
required fields times 40, plus tiered quality points, plus the geographic
bonus, capped at 100 and rounded. -/
def calculate_production_confidence (features : Dict) : Except String ℚ := do
  let compScore : ℚ := ((required_features_prod.filter (presentNotNone features)).length : ℚ)
  let compFrac := compScore / (required_features_prod.length : ℚ)
  let qVendor ← tierGE (dgetD features "vendorReliability" (Value.num 0)) (8/10) 15 (6/10) 10 (4/10) 5
  let qMaterial ← tierGE (dgetD features "materialAvailability" (Value.num 0)) (8/10) 15 (6/10) 10 (4/10) 5
  let qEnv ← tierLE (dgetD features "envRisk" (Value.num (3/10))) (3/10) 10 (5/10) 5
  let qHist ← tierLE (dgetD features "historicalDelay" (Value.num 1)) 2 10 5 5
  let quality := qVendor + qMaterial + qEnv + qHist
  Except.ok (pyRound1 (pyMinQ 100 (compFrac * 40 + quality + geo_bonus features)))

/-! ## Production inference path (ml_service.py predict, lines 305-369) -/

/-- The fixed 20-column feature row `predict` builds for the production
pipelines.  The source builds it as a one-row DataFrame and then reorders
the columns to the expected sequence; for a record the reorder is a no-op. -/
structure ProdRow where
  Project_Type : String
  State : String
  Latitude : ℚ
  Longitude : ℚ
  Terrain : String
  Base_Cost_Cr : ℚ
  Steel_Price_Index : ℚ
  Cement_Price_Index : ℚ
  Labour_Wage_RsPerDay : ℚ
  Regulatory_Delay_months : ℚ
  Historical_Delay_Count : ℚ
  Avg_Annual_Rainfall_cm : ℚ
  Vendor_Reliability : ℚ
  Material_Availability_Index : ℚ
  Demand_Supply_Pressure : String
  Skilled_Manpower_pct : ℚ
  Delay_months : ℚ
  Planned_Timeline_months : ℚ
  Cost_per_planned_month : ℚ
  Env_Risk_Index : ℚ
deriving DecidableEq, Repr

/-- An externally trained production pipeline: an opaque fitted estimator
whose predict may raise; on success it returns its prediction array. -/
abbrev Pipeline := ProdRow → Except String (List ℚ)

/-- The derived feature computed inline in `predict` (ml_service.py line 331):
float(features.get(baseCost, 100.0)) / float(features.get(plannedTimeline, 24.0)).
Note that the denominator is used as given, with no max(.., 1) floor. -/
def cost_per_planned_month (features : Dict) : Except String ℚ := do
  let b ← pyFloat (dgetD features "baseCost" (Value.num 100))
  let p ← pyFloat (dgetD features "plannedTimeline" (Value.num 24))
  pyDiv b p

/-- Building the production feature row (ml_service.py lines 312-342):
camelCase keys with hard defaults, float coercion of the numeric fields,
then the local categorical fixups for Project_Type and Terrain. -/
def buildProdRow (features : Dict) : Except String ProdRow := do
  let projectType := (dgetD features "projectType" (Value.str "Overhead Line")).pyToString
  let state := (dgetD features "state" (Value.str "Maharashtra")).pyToString
  let latitude ← pyFloat (dgetD features "latitude" (Value.num (19076/1000)))
  let longitude ← pyFloat (dgetD features "longitude" (Value.num (728777/10000)))
  let terrain := (dgetD features "terrain" (Value.str "Plains")).pyToString
  let baseCost ← pyFloat (dgetD features "baseCost" (Value.num 100))
  let steel ← pyFloat (dgetD features "steelPrice" (Value.num 100))
  let cement ← pyFloat (dgetD features "cementPrice" (Value.num 100))
  let labour ← pyFloat (dgetD features "labourWage" (Value.num 500))
  let regulatory ← pyFloat (dgetD features "regulatoryDelay" (Value.num 2))
  let historical ← pyFloat (dgetD features "historicalDelay" (Value.num 1))
  let rainfall ← pyFloat (dgetD features "rainfall" (Value.num 120))
  let vendor ← pyFloat (dgetD features "vendorReliability" (Value.num (8/10)))
  let material ← pyFloat (dgetD features "materialAvailability" (Value.num (8/10)))
  let demandSupply := (dgetD features "demandSupplyPressure" (Value.str "Medium")).pyToString
  let skilled ← pyFloat (dgetD features "skilledManpower" (Value.num 70))
  let delay ← pyFloat (dgetD features "delayMonths" (Value.num 0))
  let planned ← pyFloat (dgetD features "plannedTimeline" (Value.num 24))
  let cpm ← cost_per_planned_month features
  let env ← pyFloat (dgetD features "envRisk" (Value.num (3/10)))
  let projectType2 :=
    if projectType = "Transmission" then "Overhead Line"
    else if projectType = "Distribution" then "Underground Cable"
    else projectType
  let terrain2 :=
    if terrain = "Plain" then "Plains"
    else if terrain = "Hill" then "Hilly"
    else if terrain = "Mountain" then "Mountainous"
    else terrain
  Except.ok
    { Project_Type := projectType2, State := state, Latitude := latitude,
      Longitude := longitude, Terrain := terrain2, Base_Cost_Cr := baseCost,
      Steel_Price_Index := steel, Cement_Price_Index := cement,
      Labour_Wage_RsPerDay := labour, Regulatory_Delay_months := regulatory,
      Historical_Delay_Count := historical, Avg_Annual_Rainfall_cm := rainfall,
      Vendor_Reliability := vendor, Material_Availability_Index := material,
      Demand_Supply_Pressure := demandSupply, Skilled_Manpower_pct := skilled / 100,
      Delay_months := delay, Planned_Timeline_months := planned,
      Cost_per_planned_month := cpm, Env_Risk_Index := env }

/-- The per-pipeline prediction loop (ml_service.py lines 358-367): each
pipeline is called independently; any exception from a pipeline (including
an empty prediction array) is caught and yields 0.0 for that target only. -/
def production_loop (pipes : List (String × Pipeline)) (row : ProdRow) : Dict :=
  pipes.map (fun p =>
    (p.1,
      match p.2 row with
      | Except.ok (v :: _) => Value.num v
      | Except.ok [] => Value.num 0
      | Except.error _ => Value.num 0))

/-! ## ML service state and registry operations -/

/-- A pandas cell in the auto-trained feature path: a Python value, or a
non-finite float (inf or NaN) as produced by pandas division by zero or an
unmatched Series.map. -/
inductive PCell where
  | val : Value → PCell
  | nonfinite : PCell
deriving DecidableEq, Repr

/-- An auto-trained fallback estimator (opaque fitted model): predict on one
prepared sample, returning its prediction array; it may raise. -/
abbrev ModelFn := List PCell → Except String (List ℚ)

/-- A column-oriented training frame (the engineered DataFrame). -/
abbrev Frame := List (String × List PCell)

/-- An opaque fitted StandardScaler: transform of the numeric sub-frame. -/
abbrev Scal := Frame → Except String Frame

/-- A fitted sklearn LabelEncoder: its sorted class array. -/
structure LabelEnc where
  classes : List Value
deriving DecidableEq, Repr

/-- The mutable MLService instance: both model populations plus the shared
preprocessing state, as one explicit record. -/
structure MLState where
  production_models_loaded : Bool
  production_pipelines : List (String × Pipeline)
  models_loaded : Bool
  models : List (String × ModelFn)
  encoders : List (String × LabelEnc)
  scalers : List (String × Scal)
  feature_columns : List String

/-- The freshly constructed service before any pipeline loading. -/
def initMLState : MLState :=
  { production_models_loaded := false, production_pipelines := [],
    models_loaded := false, models := [], encoders := [], scalers := [],
    feature_columns := [] }

/-- The three production pipeline artifacts (name, file) in load order. -/
def pipeline_files : List (String × String) :=
  [("cost_prediction", "cost_pipeline.pkl"),
   ("overrun_prediction", "overrun_pipeline.pkl"),
   ("timeline_prediction", "time_pipeline.pkl")]

/-- MLService.load_production_pipelines: the file system is a parameter
mapping a filename to nothing (file missing), a load failure, or a loaded
pipeline.  Missing or corrupt artifacts are skipped; the loaded flag is set
exactly when at least one pipeline ended up in the registry. -/
def load_production_pipelines (files : String → Option (Except String Pipeline))
    (st : MLState) : MLState :=
  let pipes := pipeline_files.foldl
    (fun acc nf =>
      match files nf.2 with
      | Option.some (Except.ok p) => aset acc nf.1 p
      | Option.some (Except.error _) => acc
      | Option.none => acc)
    st.production_pipelines
  { st with
    production_pipelines := pipes,
    production_models_loaded :=
      if pipes.isEmpty then st.production_models_loaded else true }

/-- MLService.is_production_ready (ml_service.py lines 886-888): the loaded
flag and at least two pipelines in the registry. -/
def is_production_ready (st : MLState) : Bool :=
  st.production_models_loaded && decide (2 ≤ st.production_pipelines.length)

/-! ## Pandas cell arithmetic for the auto-trained feature path -/

/-- Extract a numeric cell: a rational for a number, no value for a
non-finite float, and a TypeError for strings or None, matching pandas
arithmetic on object columns. -/
def PCell.toNum? : PCell → Except String (Option ℚ)
  | .val (.num q) => Except.ok (Option.some q)
  | .nonfinite => Except.ok Option.none
  | .val (.str _) => Except.error "TypeError: unsupported operand for arithmetic on str"
  | .val .none => Except.error "TypeError: unsupported operand for arithmetic on NoneType"

/-- Lift a rational operation to cells; the operation itself may produce a
non-finite result, as division by zero does in pandas. -/
def pLift2 (f : ℚ → ℚ → Option ℚ) (a b : PCell) : Except String PCell := do
  let x ← a.toNum?
  let y ← b.toNum?
  match x, y with
  | Option.some u, Option.some v =>
      match f u v with
      | Option.some r => Except.ok (.val (.num r))
      | Option.none => Except.ok .nonfinite
  | _, _ => Except.ok .nonfinite

/-- Pandas cell division (zero denominator gives a non-finite value). -/
def pCellDiv : PCell → PCell → Except String PCell :=
  pLift2 (fun u v => if v = 0 then Option.none else Option.some (u / v))

/-- Pandas cell addition. -/
def pCellAdd : PCell → PCell → Except String PCell :=
  pLift2 (fun u v => Option.some (u + v))

/-- Pandas cell subtraction. -/
def pCellSub : PCell → PCell → Except String PCell :=
  pLift2 (fun u v => Option.some (u - v))

/-- Pandas cell absolute value. -/
def pCellAbs (a : PCell) : Except String PCell := do
  let x ← a.toNum?
  match x with
  | Option.some u => Except.ok (.val (.num |u|))
  | Option.none => Except.ok .nonfinite

/-- A numeric constant as a cell. -/
def pCellC (q : ℚ) : PCell := .val (.num q)

/-- A single DataFrame row as an ordered column-to-cell map. -/
abbrev Row := List (String × PCell)

/-- Column access df[c] on a row; missing columns raise KeyError. -/
def rget (row : Row) (c : String) : Except String PCell :=
  match aget? row c with
  | Option.some cell => Except.ok cell
  | Option.none => Except.error ("KeyError: " ++ c)

/-- The terrain ordinal used by `_feature_engineering`. -/
def terrain_risk_table : List (String × ℚ) :=
  [("Plains", 1), ("Hilly", 2), ("Desert", 3), ("Coastal", 4), ("Urban", 5),
   ("Mountainous", 6)]

/-- The project-type ordinal used by `_feature_engineering`. -/
def project_complexity_table : List (String × ℚ) :=
  [("Overhead Line", 1), ("Substation", 2), ("Underground Cable", 3)]

/-- Series.map over a lookup table: unmatched values become NaN. -/
def mapLookupCell (table : List (String × ℚ)) : PCell → PCell
  | .val (.str s) =>
      match table.lookup s with
      | Option.some q => .val (.num q)
      | Option.none => .nonfinite
  | _ => .nonfinite

/-- MLService._feature_engineering (lines 126-140) applied to one row: the
six derived columns are appended; missing source columns raise KeyError,
string cells raise TypeError in arithmetic and zero denominators give
non-finite values (pandas semantics, no max floor anywhere). -/
def feature_engineering_row (row0 : Row) : Except String Row := do
  let base ← rget row0 "Base_Cost_Cr"
  let planned ← rget row0 "Planned_Timeline_months"
  let cpm ← pCellDiv base planned
  let row1 := aset row0 "Cost_per_Month" cpm
  let wage ← rget row1 "Labour_Wage_RsPerDay"
  let wcr ← pCellDiv wage base
  let row2 := aset row1 "Wage_Cost_Ratio" wcr
  let steel ← rget row2 "Steel_Price_Index"
  let cement ← rget row2 "Cement_Price_Index"
  let sDev ← pCellAbs (← pCellSub steel (pCellC 100))
  let cDev ← pCellAbs (← pCellSub cement (pCellC 100))
  let pv ← pCellDiv (← pCellAdd sDev cDev) (pCellC 2)
  let row3 := aset row2 "Price_Volatility" pv
  let vendor ← rget row3 "Vendor_Reliability"
  let material ← rget row3 "Material_Availability_Index"
  let rr ← pCellDiv (← pCellSub (← pCellSub (pCellC 2) vendor) material) (pCellC 2)
  let row4 := aset row3 "Resource_Risk" rr
  let terr ← rget row4 "Terrain"
  let row5 := aset row4 "Terrain_Risk_Score" (mapLookupCell terrain_risk_table terr)
  let ptype ← rget row5 "Project_Type"
  let row6 := aset row5 "Project_Complexity" (mapLookupCell project_complexity_table ptype)
  Except.ok row6

/-! ## LabelEncoder (sklearn, modelled concretely) -/

/-- Sorted unique values of a column, as numpy.unique computes the class
array of a LabelEncoder; mixed-type columns are unorderable and raise. -/
def uniqueSorted (col : List Value) : Except String (List Value) :=
  if col.all (fun v => match v with | .str _ => true | _ => false) then
    Except.ok
      ((List.mergeSort
          ((col.map (fun v => match v with | .str s => s | _ => "")).dedup)
          (fun a b => a ≤ b)).map Value.str)
  else if col.all (fun v => match v with | .num _ => true | _ => false) then
    Except.ok
      ((List.mergeSort
          ((col.map (fun v => match v with | .num q => q | _ => 0)).dedup)
          (fun a b => a ≤ b)).map Value.num)
  else Except.error "TypeError: unorderable mixed types in LabelEncoder.fit"

/-- LabelEncoder.fit on a column of cells (non-finite cells cannot be
ordered against the rest and raise, as numpy does for object columns). -/
def labelFit (col : List PCell) : Except String LabelEnc := do
  let vals ← col.mapM (fun c =>
    match c with
    | PCell.val v => Except.ok v
    | PCell.nonfinite => Except.error "TypeError: unorderable mixed types in LabelEncoder.fit")
  let classes ← uniqueSorted vals
  Except.ok { classes := classes }

/-- LabelEncoder.transform: map each cell to the index of its class; values
absent from the fitted classes raise ValueError. -/
def labelTransform (enc : LabelEnc) (col : List PCell) : Except String (List PCell) :=
  col.mapM (fun c =>
    match c with
    | PCell.val v =>
        match enc.classes.indexOf? v with
        | Option.some i => Except.ok (PCell.val (Value.num i))
        | Option.none => Except.error "ValueError: y contains previously unseen labels"
    | PCell.nonfinite => Except.error "ValueError: y contains previously unseen labels")

/-! ## Fallback inference path (ml_service.py predict, lines 371-407) -/

/-- Categorical columns shared by both feature preparation paths. -/
def categorical_columns : List String :=
  ["Project_Type", "Terrain", "Demand_Supply_Pressure"]

/-- MLService._prepare_single_prediction_features (lines 506-534): one-row
frame from the features dict, feature engineering, selection of the stored
feature columns, categorical encoding with the stored encoders (skipped
when no encoder exists), scaling of the numeric columns with the stored
scaler (skipped when absent), and extraction of the cell vector. -/
def prepare_single_prediction_features (st : MLState) (features : Dict) :
    Except String (List PCell) := do
  let row0 : Row := features.map (fun kv => (kv.1, PCell.val kv.2))
  let row ← feature_engineering_row row0
  let x0 ← st.feature_columns.mapM (fun c => do
    let cell ← rget row c
    Except.ok (c, cell))
  let x1 ← categorical_columns.foldlM (fun (acc : Row) col =>
    if (aget? acc col).isSome then
      match aget? st.encoders col with
      | Option.some enc => do
          let cell ← rget acc col
          let tcol ← labelTransform enc [cell]
          match tcol with
          | tcell :: _ => Except.ok (aset acc col tcell)
          | [] => Except.ok acc
      | Option.none => Except.ok acc
    else Except.ok acc) x0
  let numerical := st.feature_columns.filter (fun c => ¬ categorical_columns.contains c)
  let x2 ←
    match aget? st.scalers "scaler" with
    | Option.some scal => do
        let numFrame : Frame ← numerical.mapM (fun c => do
          let cell ← rget x1 c
          Except.ok (c, [cell]))
        let scaled ← scal numFrame
        Except.ok (x1.map (fun kc =>
          if numerical.contains kc.1 then
            match aget? scaled kc.1 with
            | Option.some (nc :: _) => (kc.1, nc)
            | _ => kc
          else kc))
    | Option.none => Except.ok x1
  Except.ok (x2.map (fun kc => kc.2))

/-- Model registry keys and targets (ml_service.py model_configs, in
insertion order). -/
def model_configs : List (String × String) :=
  [("cost_overrun", "Overrun_pct"), ("delay_prediction", "Delay_months"),
   ("cost_prediction", "Total_Cost_Cr"), ("timeline_prediction", "Timeline_months")]

/-- The fallback branch of predict (lines 371-407): lazily load the saved
models (an external effect, passed as loadModelsFx), prepare the feature
vector, run the multi-output model if present (else the per-target models),
then append risk_assessment and confidence_score to the predictions dict. -/
def fallback_branch (loadModelsFx : MLState → Except String MLState) (st : MLState)
    (prediction_type : String) (features : Dict) : Except String Dict := do
  let st1 ← if st.models_loaded then Except.ok st else loadModelsFx st
  let x ← prepare_single_prediction_features st1 features
  let preds ←
    if prediction_type = "all" then
      match aget? st1.models "multioutput" with
      | Option.some m => do
          let arr ← m x
          let v0 ← pyIdx arr 0
          let v1 ← pyIdx arr 1
          let v2 ← pyIdx arr 2
          let v3 ← pyIdx arr 3
          Except.ok ([("delay_months", Value.num v0), ("cost_overrun_pct", Value.num v1),
                      ("total_cost_cr", Value.num v2), ("timeline_months", Value.num v3)] : Dict)
      | Option.none =>
          model_configs.foldlM (fun (acc : Dict) cfg =>
            match aget? st1.models cfg.1 with
            | Option.some m => do
                let arr ← m x
                let v ← pyIdx arr 0
                Except.ok (dset acc cfg.1 (Value.num v))
            | Option.none => Except.ok acc) ([] : Dict)
    else
      match aget? st1.models prediction_type with
      | Option.some m => do
          let arr ← m x
          let v ← pyIdx arr 0
          Except.ok ([(prediction_type, Value.num v)] : Dict)
      | Option.none => Except.ok ([] : Dict)
  let risk ← assess_risk preds
  let conf ← calculate_confidence features
  Except.ok (dset (dset preds "risk_assessment" (Value.str risk)) "confidence_score" (Value.num conf))

/-- The production branch of predict (lines 309-369): build the fixed
feature row, then query every loaded pipeline with per-pipeline fault
isolation.  The returned dict holds the raw pipeline outputs only. -/
def production_branch (st : MLState) (features : Dict) : Except String Dict := do
  let row ← buildProdRow features
  Except.ok (production_loop st.production_pipelines row)

/-- MLService.predict (lines 305-411).  The production branch is taken
whenever the production flag is set and at least one pipeline is loaded;
otherwise the fallback branch runs.  The surrounding try/except logs and
re-raises, which is the identity on the Except result. -/
def predict (loadModelsFx : MLState → Except String MLState) (st : MLState)
    (prediction_type : String) (features : Dict) : Except String Dict :=
  if st.production_models_loaded && decide (0 < st.production_pipelines.length) then
    production_branch st features
  else
    fallback_branch loadModelsFx st prediction_type features

/-- Whether an inference result is a dict containing the given key. -/
def resultHas (r : Except String Dict) (k : String) : Bool :=
  match r with
  | Except.ok d => dmem d k
  | Except.error _ => false

/-! ## Training-side registry operations (ml_service.py 142-185 and 834-872) -/

/-- The 20 feature columns `prepare_features` selects (base plus derived). -/
def training_feature_columns : List String :=
  ["Project_Type", "Terrain", "Base_Cost_Cr", "Steel_Price_Index", "Cement_Price_Index",
   "Labour_Wage_RsPerDay", "Regulatory_Delay_months", "Historical_Delay_Count",
   "Avg_Annual_Rainfall_cm", "Vendor_Reliability", "Material_Availability_Index",
   "Demand_Supply_Pressure", "Skilled_Manpower_pct", "Planned_Timeline_months",
   "Cost_per_Month", "Wage_Cost_Ratio", "Price_Volatility", "Resource_Risk",
   "Terrain_Risk_Score", "Project_Complexity"]

/-- Frame column access df[c]; missing columns raise KeyError. -/
def fget (df : Frame) (c : String) : Except String (List PCell) :=
  match aget? df c with
  | Option.some col => Except.ok col
  | Option.none => Except.error ("KeyError: " ++ c)

/-- Sub-frame of the named columns (all of which exist at the call sites). -/
def subFrame (x : Frame) (cols : List String) : Frame :=
  cols.filterMap (fun c => (aget? x c).map (fun col => (c, col)))

/-- Write back scaled numeric columns into the frame. -/
def writeBack (x : Frame) (numerical : List String) (scaled : Frame) : Frame :=
  x.map (fun kc =>
    if numerical.contains kc.1 then
      match aget? scaled kc.1 with
      | Option.some col => (kc.1, col)
      | Option.none => kc
    else kc)

/-- The categorical-encoding loop of `prepare_features` (lines 164-170):
state mutations happen in place, column by column, so a failure part-way
leaves the encoders fitted so far in the registry.  A fresh LabelEncoder is
stored before fit_transform runs, exactly as the source assigns
self.encoders[col] first; a fit failure therefore leaves an unfitted
encoder (empty class array) behind. -/
def encode_categoricals (st : MLState) (x : Frame) :
    List String → MLState × Except String Frame
  | [] => (st, Except.ok x)
  | col :: rest =>
    match aget? x col with
    | Option.none => encode_categoricals st x rest
    | Option.some colCells =>
      match aget? st.encoders col with
      | Option.none =>
          match labelFit colCells with
          | Except.error e =>
              ({ st with encoders := aset st.encoders col { classes := [] } }, Except.error e)
          | Except.ok enc =>
              let st2 := { st with encoders := aset st.encoders col enc }
              match labelTransform enc colCells with
              | Except.error e => (st2, Except.error e)
              | Except.ok newCol => encode_categoricals st2 (aset x col newCol) rest
      | Option.some enc =>
          match labelTransform enc colCells with
          | Except.error e => (st, Except.error e)
          | Except.ok newCol => encode_categoricals st (aset x col newCol) rest

/-- MLService.prepare_features (lines 142-185): overwrites feature_columns,
selects the 20 columns, fits or applies the categorical encoders, then fits
or applies the shared scaler (StandardScaler fitting is opaque numeric I/O,
passed as fitScaler).  The try/except re-raises, so state mutated before a
failure stays mutated. -/
def prepare_features (fitScaler : Frame → Scal) (st : MLState) (df : Frame) :
    MLState × Except String Frame :=
  let st1 := { st with feature_columns := training_feature_columns }
  match training_feature_columns.mapM
      (fun c => (fget df c).map (fun col => (c, col))) with
  | Except.error e => (st1, Except.error e)
  | Except.ok x0 =>
    match encode_categoricals st1 x0 categorical_columns with
    | (st2, Except.error e) => (st2, Except.error e)
    | (st2, Except.ok x1) =>
      let numerical := training_feature_columns.filter
        (fun c => ¬ categorical_columns.contains c)
      let numFrame := subFrame x1 numerical
      match aget? st2.scalers "scaler" with
      | Option.none =>
          let scal := fitScaler numFrame
          let st3 := { st2 with scalers := aset st2.scalers "scaler" scal }
          match scal numFrame with
          | Except.error e => (st3, Except.error e)
          | Except.ok scaled => (st3, Except.ok (writeBack x1 numerical scaled))
      | Option.some scal =>
          match scal numFrame with
          | Except.error e => (st2, Except.error e)
          | Except.ok scaled => (st2, Except.ok (writeBack x1 numerical scaled))

/-- MLService.retrain_model (lines 834-872), for a pre-loaded engineered
frame (load_dataset is file I/O; the loaded frame is passed directly).
The fixed-seed train/test split, the four-algorithm selection and the
metric evaluation are folded into the opaque trainer tb; save_models is
opaque file I/O.  The final except clause logs and re-raises, so errors
propagate together with whatever state mutations already happened. -/
def retrain_model (fitScaler : Frame → Scal)
    (tb : Frame → List PCell → Except String ModelFn)
    (saveModelsFx : MLState → Except String Unit)
    (st : MLState) (model_name : String) (df : Frame) :
    MLState × Except String Bool :=
  match prepare_features fitScaler st df with
  | (st1, Except.error e) => (st1, Except.error e)
  | (st1, Except.ok x) =>
    match model_configs.lookup model_name with
    | Option.some target =>
        match fget df target with
        | Except.error e => (st1, Except.error e)
        | Except.ok y =>
          match tb x y with
          | Except.error e => (st1, Except.error e)
          | Except.ok m =>
            let st2 := { st1 with models := aset st1.models model_name m }
            match saveModelsFx st2 with
            | Except.error e => (st2, Except.error e)
            | Except.ok _ => (st2, Except.ok true)
    | Option.none =>
        (st1, Except.error ("ValueError: Unknown model name: " ++ model_name))

/-! ## Feature normalizer (prediction_service.py _convert_to_ml_format) -/

/-- The frontend-to-ML key alias table, in source order. -/
def field_mapping : List (String × String) :=
  [("projectType", "Project_Type"), ("terrainType", "Terrain"),
   ("baseEstimatedCost", "Base_Cost_Cr"), ("steelPriceIndex", "Steel_Price_Index"),
   ("cementPriceIndex", "Cement_Price_Index"), ("labourWageRate", "Labour_Wage_RsPerDay"),
   ("regulatoryDelayEstimate", "Regulatory_Delay_months"),
   ("historicalDelayPattern", "Historical_Delay_Count"),
   ("annualRainfall", "Avg_Annual_Rainfall_cm"),
   ("vendorReliabilityScore", "Vendor_Reliability"),
   ("materialAvailabilityIndex", "Material_Availability_Index"),
   ("demandSupplyPressure", "Demand_Supply_Pressure"),
   ("skilledManpowerAvailability", "Skilled_Manpower_pct"),
   ("plannedTimelineMonths", "Planned_Timeline_months")]

/-- Synonym mapping for projectType (unknown values default to Substation). -/
def convert_project_type (v : Value) : Value :=
  if v = Value.str "substation" then Value.str "Substation"
  else if v = Value.str "overhead-line" then Value.str "Overhead Line"
  else if v = Value.str "underground-cable" then Value.str "Underground Cable"
  else Value.str "Substation"

/-- Synonym mapping for terrainType (unknown values default to Plains). -/
def convert_terrain_type (v : Value) : Value :=
  if v = Value.str "plains" then Value.str "Plains"
  else if v = Value.str "hilly" then Value.str "Hilly"
  else if v = Value.str "desert" then Value.str "Desert"
  else if v = Value.str "coastal" then Value.str "Coastal"
  else if v = Value.str "urban" then Value.str "Urban"
  else if v = Value.str "mountainous" then Value.str "Mountainous"
  else Value.str "Plains"

/-- Synonym mapping for demandSupplyPressure (unknown defaults to Medium). -/
def convert_pressure (v : Value) : Value :=
  if v = Value.str "low" then Value.str "Low"
  else if v = Value.str "medium" then Value.str "Medium"
  else if v = Value.str "high" then Value.str "High"
  else Value.str "Medium"

/-- Mapping of the historical delay pattern to a count (default medium, 3). -/
def convert_delay_pattern (v : Value) : Value :=
  if v = Value.str "low" then Value.num 1
  else if v = Value.str "medium" then Value.num 3
  else if v = Value.str "high" then Value.num 5
  else Value.num 3

/-- Defaults appended for missing ML fields, in source order. -/
def ml_defaults : Dict :=
  [("Steel_Price_Index", Value.num 100), ("Cement_Price_Index", Value.num 100),
   ("Regulatory_Delay_months", Value.num 0), ("Historical_Delay_Count", Value.num 3),
   ("Avg_Annual_Rainfall_cm", Value.num 100), ("Demand_Supply_Pressure", Value.str "Medium"),
   ("Planned_Timeline_months", Value.num 12)]

/-- One step of the alias-translation loop of _convert_to_ml_format: a
present frontend key is stored under its ML key (with the four special
conversions); an absent one leaves the accumulator unchanged.  Values of
non-special fields pass through with no numeric coercion. -/
def convert_step (project_data : Dict) (acc : Dict) (kv : String × String) : Dict :=
  match dget? project_data kv.1 with
  | Option.none => acc
  | Option.some value =>
      let mlv :=
        if kv.1 = "projectType" then convert_project_type value
        else if kv.1 = "terrainType" then convert_terrain_type value
        else if kv.1 = "demandSupplyPressure" then convert_pressure value
        else if kv.1 = "historicalDelayPattern" then convert_delay_pattern value
        else value
      dset acc kv.2 mlv

/-- One step of the defaults loop of _convert_to_ml_format: add the default
only when the ML key is still missing. -/
def default_step (acc : Dict) (kv : String × Value) : Dict :=
  if dmem acc kv.1 then acc else dset acc kv.1 kv.2

/-- PredictionService._convert_to_ml_format (lines 72-149): translate the
present frontend keys through the alias table, then fill in the defaults
for still-missing ML fields. -/
def convert_to_ml_format (project_data : Dict) : Dict :=
  ml_defaults.foldl default_step (field_mapping.foldl (convert_step project_data) ([] : Dict))

/-! ## Recommendation generator and risk factor analysis -/

/-- Format a rational with one decimal digit, as an f-string .1f does. -/
def fmt1 (q : ℚ) : String :=
  let r := bankersRound (10 * q)
  let sign := if r < 0 then "-" else ""
  let a := r.natAbs
  sign ++ toString (a / 10) ++ "." ++ toString (a % 10)

/-- Interpolate a value with a .1f format (only ever reached for numbers). -/
def valFmt1 (v : Value) : String :=
  match v with
  | Value.num q => fmt1 q
  | _ => v.pyToString

/-- Python str.title() for the single lowercase words it is applied to. -/
def pyTitle (s : String) : String :=
  match s.toList with
  | [] => ""
  | c :: rest => String.mk (c.toUpper :: rest.map Char.toLower)

/-- One recommendation record. -/
structure Rec where
  rtype : String
  priority : String
  title : String
  description : String
  actions : List String
deriving DecidableEq, Repr

/-- PredictionService._generate_recommendations (lines 151-292): ordered,
threshold-triggered records; comparisons are evaluated in source order and
raise on non-numeric values exactly where Python would. -/
def generate_recommendations (project_data predictions : Dict) :
    Except String (List Rec) := do
  let cost_overrun := dgetD predictions "cost_overrun_pct" (Value.num 0)
  let delay_months := dgetD predictions "delay_months" (Value.num 0)
  let costGT15 ← pyGTnum cost_overrun 15
  let costRecs : List Rec ←
    if costGT15 then
      Except.ok [
        { rtype := "cost", priority := "high",
          title := "High Cost Overrun Risk Detected",
          description := "Model predicts " ++ valFmt1 cost_overrun ++
            "% cost overrun. Implement strict cost controls.",
          actions := ["Negotiate fixed-price contracts with key vendors",
            "Implement daily cost tracking and reporting",
            "Consider value engineering to reduce scope",
            "Increase contingency budget by 20-25%"] }]
    else do
      let costGT8 ← pyGTnum cost_overrun 8
      if costGT8 then
        Except.ok [
          { rtype := "cost", priority := "medium",
            title := "Moderate Cost Risk",
            description := "Model predicts " ++ valFmt1 cost_overrun ++
              "% cost overrun. Monitor cost trends closely.",
            actions := ["Weekly cost review meetings",
              "Lock in material prices where possible",
              "Monitor vendor performance closely"] }]
      else Except.ok []
  let delayGT4 ← pyGTnum delay_months 4
  let delayRecs : List Rec ←
    if delayGT4 then
      Except.ok [
        { rtype := "timeline", priority := "high",
          title := "Significant Delays Expected",
          description := "Model predicts " ++ valFmt1 delay_months ++
            " months delay. Implement acceleration measures.",
          actions := ["Consider parallel execution of activities",
            "Engage additional resources for critical path",
            "Fast-track permitting and approvals",
            "Implement 24/7 work schedule if feasible"] }]
    else do
      let delayGT2 ← pyGTnum delay_months 2
      if delayGT2 then
        Except.ok [
          { rtype := "timeline", priority := "medium",
            title := "Potential Timeline Risks",
            description := "Model predicts " ++ valFmt1 delay_months ++
              " months delay. Optimize scheduling.",
            actions := ["Review critical path activities",
              "Improve coordination between teams",
              "Address resource constraints proactively"] }]
      else Except.ok []
  let vendor := dgetD project_data "vendorReliabilityScore" (Value.num (8/10))
  let vendorLT ← pyLTnum vendor (6/10)
  let vendorRecs : List Rec :=
    if vendorLT then
      [
        { rtype := "vendor", priority := "high",
          title := "Vendor Reliability Concerns",
          description := "Low vendor reliability score detected. Implement enhanced monitoring.",
          actions := ["Establish backup vendors for critical items",
            "Implement vendor performance scorecards",
            "Increase quality inspection frequency",
            "Consider vendor development programs"] }]
    else []
  let material := dgetD project_data "materialAvailabilityIndex" (Value.num (8/10))
  let materialLT ← pyLTnum material (7/10)
  let materialRecs : List Rec :=
    if materialLT then
      [
        { rtype := "materials", priority := "medium",
          title := "Material Availability Risk",
          description := "Limited material availability detected. Secure supply chains.",
          actions := ["Pre-order critical materials",
            "Identify alternative suppliers",
            "Consider material substitutions where appropriate",
            "Implement just-in-time inventory management"] }]
    else []
  let manpower := dgetD project_data "skilledManpowerAvailability" (Value.num 70)
  let manpowerLT ← pyLTnum manpower 60
  let manpowerRecs : List Rec :=
    if manpowerLT then
      [
        { rtype := "manpower", priority := "high",
          title := "Skilled Manpower Shortage",
          description := "Only " ++ manpower.pyToString ++
            "% skilled manpower available. Address resource gaps.",
          actions := ["Implement training programs for local workers",
            "Partner with technical institutes",
            "Consider bringing in skilled workers from other regions",
            "Increase automation where possible"] }]
    else []
  let terrain := dgetD project_data "terrainType" (Value.str "plains")
  let terrainRecs : List Rec :=
    if terrain = Value.str "mountainous" ∨ terrain = Value.str "urban" then
      [
        { rtype := "terrain", priority := "medium",
          title := "Complex Terrain Challenges (" ++ pyTitle terrain.pyToString ++ ")",
          description := "Complex terrain requires specialized approach and equipment.",
          actions := ["Engage specialized contractors with terrain experience",
            "Conduct detailed geological surveys",
            "Use specialized equipment and techniques",
            "Allow additional time for logistics"] }]
    else []
  let rainfall := dgetD project_data "annualRainfall" (Value.num 100)
  let rainGT ← pyGTnum rainfall 150
  let rainRecs : List Rec :=
    if rainGT then
      [
        { rtype := "environmental", priority := "medium",
          title := "High Rainfall Area",
          description := "Annual rainfall of " ++ rainfall.pyToString ++
            "cm may cause delays. Plan for weather risks.",
          actions := ["Schedule outdoor work during dry season",
            "Invest in weather protection equipment",
            "Develop monsoon contingency plans",
            "Consider weather insurance"] }]
    else []
  Except.ok (costRecs ++ delayRecs ++ vendorRecs ++ materialRecs ++ manpowerRecs ++
    terrainRecs ++ rainRecs)

/-- One analysed risk factor. -/
structure RiskFactor where
  factor : String
  severity : String
  impact : String
  mitigation : String
deriving DecidableEq, Repr

/-- The four risk factor buckets. -/
structure RiskFactors where
  financial_risks : List RiskFactor
  operational_risks : List RiskFactor
  environmental_risks : List RiskFactor
  external_risks : List RiskFactor
deriving DecidableEq, Repr

/-- The empty bucket set. -/
def emptyRiskFactors : RiskFactors :=
  { financial_risks := [], operational_risks := [], environmental_risks := [],
    external_risks := [] }

/-- PredictionService._analyze_risk_factors (lines 294-382). -/
def analyze_risk_factors (project_data predictions : Dict) :
    Except String RiskFactors := do
  let cost_overrun := dgetD predictions "cost_overrun_pct" (Value.num 0)
  let coGT10 ← pyGTnum cost_overrun 10
  let fin1 : List RiskFactor ←
    if coGT10 then do
      let coGT20 ← pyGTnum cost_overrun 20
      Except.ok [
        { factor := "Cost Overrun Risk",
          severity := if coGT20 then "High" else "Medium",
          impact := valFmt1 cost_overrun ++ "% predicted overrun",
          mitigation := "Implement strict cost controls and fixed-price contracts" }]
    else Except.ok []
  let steel := dgetD project_data "steelPriceIndex" (Value.num 100)
  let cement := dgetD project_data "cementPriceIndex" (Value.num 100)
  let steelQ ← asNum steel
  let volatile ←
    if 15 < |steelQ - 100| then Except.ok true
    else do
      let cementQ ← asNum cement
      Except.ok (decide (15 < |cementQ - 100|))
  let fin2 : List RiskFactor :=
    if volatile then
      [
        { factor := "Material Price Volatility", severity := "Medium",
          impact := "Price fluctuations affecting project costs",
          mitigation := "Lock in material prices through forward contracts" }]
    else []
  let vendor := dgetD project_data "vendorReliabilityScore" (Value.num (8/10))
  let vendorLT7 ← pyLTnum vendor (7/10)
  let op1 : List RiskFactor ←
    if vendorLT7 then do
      let vendorLT6 ← pyLTnum vendor (6/10)
      Except.ok [
        { factor := "Vendor Performance Risk",
          severity := if vendorLT6 then "High" else "Medium",
          impact := "Potential delays due to vendor issues",
          mitigation := "Establish backup vendors and performance monitoring" }]
    else Except.ok []
  let manpower := dgetD project_data "skilledManpowerAvailability" (Value.num 70)
  let manpowerLT70 ← pyLTnum manpower 70
  let op2 : List RiskFactor ←
    if manpowerLT70 then do
      let manpowerLT50 ← pyLTnum manpower 50
      Except.ok [
        { factor := "Skilled Labor Shortage",
          severity := if manpowerLT50 then "High" else "Medium",
          impact := "Only " ++ manpower.pyToString ++ "% skilled manpower available",
          mitigation := "Training programs and alternative sourcing strategies" }]
    else Except.ok []
  let terrain := dgetD project_data "terrainType" (Value.str "plains")
  let env1 : List RiskFactor :=
    if terrain = Value.str "mountainous" ∨ terrain = Value.str "urban" ∨
        terrain = Value.str "coastal" then
      [
        { factor := pyTitle terrain.pyToString ++ " Terrain Complexity",
          severity := if terrain = Value.str "mountainous" then "High" else "Medium",
          impact := "Increased construction complexity and costs",
          mitigation := "Specialized contractors and equipment" }]
    else []
  let rainfall := dgetD project_data "annualRainfall" (Value.num 100)
  let rainGT ← pyGTnum rainfall 150
  let env2 : List RiskFactor :=
    if rainGT then
      [
        { factor := "High Rainfall Impact", severity := "Medium",
          impact := rainfall.pyToString ++ "cm annual rainfall may cause delays",
          mitigation := "Weather-based scheduling and protection measures" }]
    else []
  let regulatory := dgetD project_data "regulatoryDelayEstimate" (Value.num 0)
  let regGT3 ← pyGTnum regulatory 3
  let ext1 : List RiskFactor :=
    if regGT3 then
      [
        { factor := "Regulatory Approval Delays", severity := "Medium",
          impact := regulatory.pyToString ++ " months estimated delays",
          mitigation := "Early engagement with regulatory authorities" }]
    else []
  let demand := dgetD project_data "demandSupplyPressure" (Value.str "medium")
  let ext2 : List RiskFactor :=
    if demand = Value.str "high" then
      [
        { factor := "Market Demand Pressure", severity := "Medium",
          impact := "Competition for resources and higher costs",
          mitigation := "Early resource booking and strategic partnerships" }]
    else []
  Except.ok
    { financial_risks := fin1 ++ fin2, operational_risks := op1 ++ op2,
      environmental_risks := env1 ++ env2, external_risks := ext1 ++ ext2 }

/-! ## Prediction service entry point and rule-based fallback -/

/-- Required fields for the completeness score (weight 2). -/
def required_fields_pd : List String :=
  ["projectType", "terrainType", "baseEstimatedCost", "labourWageRate",
   "vendorReliabilityScore", "materialAvailabilityIndex", "skilledManpowerAvailability"]

/-- Optional fields for the completeness score (weight 1). -/
def optional_fields_pd : List String :=
  ["steelPriceIndex", "cementPriceIndex", "regulatoryDelayEstimate",
   "annualRainfall", "demandSupplyPressure", "historicalDelayPattern"]

/-- PredictionService._calculate_data_completeness (lines 384-402). -/
def calculate_data_completeness (project_data : Dict) : ℚ :=
  let r : ℚ := ((required_fields_pd.filter (presentNotNone project_data)).length : ℚ)
  let o : ℚ := ((optional_fields_pd.filter (presentNotNone project_data)).length : ℚ)
  pyRound1 ((r * 2 + o) /
    ((required_fields_pd.length * 2 + optional_fields_pd.length : ℕ) : ℚ) * 100)

/-- The response shape of predict_project_outcomes, with the predictions
block inlined. -/
structure PResult where
  cost_overrun_probability : ℚ
  predicted_delay_months : ℚ
  predicted_total_cost : Value
  predicted_timeline_months : ℚ
  risk_category : Value
  confidence_score : Value
  recommendations : List Rec
  risk_factors : RiskFactors
  model_version : String
  prediction_date : String
  data_completeness : ℚ
  note : Option String
deriving DecidableEq, Repr

/-- The response construction of predict_project_outcomes (lines 45-63):
clamping of the numeric predictions and assembly of the analysis block.
The wall-clock timestamp is passed in as now. -/
def build_result (now : String) (project_data predictions : Dict)
    (recs : List Rec) (rf : RiskFactors) : Except String PResult := do
  let co ← asNum (dgetD predictions "cost_overrun_pct" (Value.num 0))
  let dm ← asNum (dgetD predictions "delay_months" (Value.num 0))
  let tc ← pyMax2 (dgetD project_data "baseEstimatedCost" (Value.num 0))
    (dgetD predictions "total_cost_cr" (Value.num 0))
  let tm ← asNum (dgetD predictions "timeline_months"
    (dgetD project_data "plannedTimelineMonths" (Value.num 12)))
  Except.ok
    { cost_overrun_probability := pyMaxQ 0 (pyMinQ 100 co),
      predicted_delay_months := pyMaxQ 0 dm,
      predicted_total_cost := tc,
      predicted_timeline_months := pyMaxQ 1 tm,
      risk_category := dgetD predictions "risk_assessment" (Value.str "Medium"),
      confidence_score := dgetD predictions "confidence_score" (Value.num 75),
      recommendations := recs,
      risk_factors := rf,
      model_version := "1.0.0",
      prediction_date := now,
      data_completeness := calculate_data_completeness project_data,
      note := Option.none }

/-- The fallback terrain multipliers of _fallback_predictions. -/
def terrain_multiplier (terrain : Value) : ℚ :=
  if terrain = Value.str "plains" then 1
  else if terrain = Value.str "hilly" then 23/20
  else if terrain = Value.str "desert" then 11/10
  else if terrain = Value.str "coastal" then 6/5
  else if terrain = Value.str "urban" then 5/4
  else if terrain = Value.str "mountainous" then 27/20
  else 1

/-- PredictionService._fallback_predictions (lines 404-450): the rule-based
heuristic used when the ML path raises.  Note that it performs arithmetic
on raw input fields and can itself raise on non-numeric values. -/
def fallback_predictions (now : String) (project_data : Dict) :
    Except String PResult := do
  let base_cost := dgetD project_data "baseEstimatedCost" (Value.num 1000)
  let terrain := dgetD project_data "terrainType" (Value.str "plains")
  let vendor := dgetD project_data "vendorReliabilityScore" (Value.num (8/10))
  let tf := terrain_multiplier terrain
  let vq ← asNum vendor
  let vf := 2 - vq
  let cost_overrun := pyMaxQ 0 (pyMinQ 50 ((tf - 1) * 100 + (vf - 1) * 25))
  let delay_months := pyMaxQ 0 ((tf - 1) * 12 + (vf - 1) * 6)
  let risk :=
    if 20 < cost_overrun ∨ 4 < delay_months then "High"
    else if 10 < cost_overrun ∨ 2 < delay_months then "Medium"
    else "Low"
  let bq ← asNum base_cost
  let planned ← asNum (dgetD project_data "plannedTimelineMonths" (Value.num 12))
  Except.ok
    { cost_overrun_probability := pyRound1 cost_overrun,
      predicted_delay_months := pyRound1 delay_months,
      predicted_total_cost := Value.num (bq * (1 + cost_overrun / 100)),
      predicted_timeline_months := planned + delay_months,
      risk_category := Value.str risk,
      confidence_score := Value.num 60,
      recommendations := [],
      risk_factors := emptyRiskFactors,
      model_version := "fallback-1.0",
      prediction_date := now,
      data_completeness := calculate_data_completeness project_data,
      note := Option.some "Using fallback prediction logic" }

/-- The body of the try block of predict_project_outcomes (lines 31-65):
normalize, run the ML predict, generate recommendations and risk factors,
and assemble the response. -/
def try_predict_outcomes (loadModelsFx : MLState → Except String MLState)
    (st : MLState) (now : String) (project_data : Dict) : Except String PResult := do
  let ml_features := convert_to_ml_format project_data
  let predictions ← predict loadModelsFx st "all" ml_features
  let recs ← generate_recommendations project_data predictions
  let rf ← analyze_risk_factors project_data predictions
  build_result now project_data predictions recs rf

/-- PredictionService.predict_project_outcomes (lines 21-70): any exception
from the try block is caught and the rule-based fallback is substituted.
An exception raised inside the fallback itself propagates to the caller. -/
def predict_project_outcomes (loadModelsFx : MLState → Except String MLState)
    (st : MLState) (now : String) (project_data : Dict) : Except String PResult :=
  match try_predict_outcomes loadModelsFx st now project_data with
  | Except.ok r => Except.ok r
  | Except.error _ => fallback_predictions now project_data

/-! ## Auxiliary predicates and concrete fixtures -/

/-- Whether an Except result is an error (a raised exception). -/
def eIsError {α : Type} : Except String α → Bool
  | Except.error _ => true
  | Except.ok _ => false

/-- A field is numeric where present: the typing a caller respecting the
canonical schema guarantees for the numeric fields. -/
def NumericOrAbsent (d : Dict) (k : String) : Prop :=
  ∀ v, dget? d k = Option.some v → ∃ q, v = Value.num q

/-- A loader stub for the saved fallback models (the identity effect). -/
def loadStub : MLState → Except String MLState := fun s => Except.ok s

/-- A production pipeline predicting the constant 7. -/
def pipeConst7 : Pipeline := fun _ => Except.ok [7]

/-- A production pipeline whose predict always raises. -/
def pipeRaise : Pipeline := fun _ => Except.error "RuntimeError: pipeline failure"

/-- A file system holding only the cost pipeline artifact. -/
def filesOne : String → Option (Except String Pipeline) :=
  fun name =>
    if name = "cost_pipeline.pkl" then Option.some (Except.ok pipeConst7)
    else Option.none

/-- The service state reached by loading with only the cost artifact
present: the loaded flag is set with a single pipeline in the registry. -/
def stOne : MLState := load_production_pipelines filesOne initMLState

/-- A state with two loaded production pipelines, the second of which
raises on every predict call. -/
def stTwo : MLState :=
  { initMLState with
    production_models_loaded := true,
    production_pipelines :=
      [("cost_prediction", pipeConst7), ("overrun_prediction", pipeRaise)] }

/-- The all-defaults production feature row (the row built from an empty
features dict). -/
def rowFix : ProdRow :=
  { Project_Type := "Overhead Line", State := "Maharashtra",
    Latitude := 19076/1000, Longitude := 728777/10000, Terrain := "Plains",
    Base_Cost_Cr := 100, Steel_Price_Index := 100, Cement_Price_Index := 100,
    Labour_Wage_RsPerDay := 500, Regulatory_Delay_months := 2,
    Historical_Delay_Count := 1, Avg_Annual_Rainfall_cm := 120,
    Vendor_Reliability := 8/10, Material_Availability_Index := 8/10,
    Demand_Supply_Pressure := "Medium", Skilled_Manpower_pct := 70/100,
    Delay_months := 0, Planned_Timeline_months := 24,
    Cost_per_planned_month := 100/24, Env_Risk_Index := 3/10 }

/-- An identity transform standing in for a fitted StandardScaler. -/
def fitScalerId : Frame → Scal := fun _ => fun f => Except.ok f

/-- A trainer whose re-fit raises, modelling a failure inside model
fitting during retraining. -/
def tbFail : Frame → List PCell → Except String ModelFn :=
  fun _ _ => Except.error "ValueError: Input contains NaN"

/-- A save operation that succeeds. -/
def saveOk : MLState → Except String Unit := fun _ => Except.ok ()

/-- A constant per-target model populating the registry fixture. -/
def modelConst : ModelFn := fun _ => Except.ok [0]

/-- A registry holding one auto-trained model and no fitted preprocessing
state (the state before a retrain call). -/
def st0reg : MLState := { initMLState with models := [("cost_overrun", modelConst)] }

/-- A one-row engineered training frame with all twenty feature columns
and the Overrun_pct target. -/
def dfFix : Frame :=
  [("Project_Type", [PCell.val (Value.str "Substation")]),
   ("Terrain", [PCell.val (Value.str "Plains")]),
   ("Base_Cost_Cr", [PCell.val (Value.num 1)]),
   ("Steel_Price_Index", [PCell.val (Value.num 1)]),
   ("Cement_Price_Index", [PCell.val (Value.num 1)]),
   ("Labour_Wage_RsPerDay", [PCell.val (Value.num 1)]),
   ("Regulatory_Delay_months", [PCell.val (Value.num 1)]),
   ("Historical_Delay_Count", [PCell.val (Value.num 1)]),
   ("Avg_Annual_Rainfall_cm", [PCell.val (Value.num 1)]),
   ("Vendor_Reliability", [PCell.val (Value.num 1)]),
   ("Material_Availability_Index", [PCell.val (Value.num 1)]),
   ("Demand_Supply_Pressure", [PCell.val (Value.str "Medium")]),
   ("Skilled_Manpower_pct", [PCell.val (Value.num 1)]),
   ("Planned_Timeline_months", [PCell.val (Value.num 1)]),
   ("Cost_per_Month", [PCell.val (Value.num 1)]),
   ("Wage_Cost_Ratio", [PCell.val (Value.num 1)]),
   ("Price_Volatility", [PCell.val (Value.num 1)]),
   ("Resource_Risk", [PCell.val (Value.num 1)]),
   ("Terrain_Risk_Score", [PCell.val (Value.num 1)]),
   ("Project_Complexity", [PCell.val (Value.num 1)]),
   ("Overrun_pct", [PCell.val (Value.num 10)])]

/-- The prepared feature frame produced by prepare_features on the fixture
registry and frame (used to discharge hypotheses concretely). -/
def xFix : Frame :=
  match (prepare_features fitScalerId st0reg dfFix).2 with
  | Except.ok x => x
  | Except.error _ => []

/-- A request whose vendor reliability score is a non-numeric string. -/
def pdBadVendor : Dict := [("vendorReliabilityScore", Value.str "high")]

/-- A request whose skilled manpower availability is a non-numeric string
(the ML path raises on it; the rule-based fallback never reads it). -/
def pdManpowerStr : Dict := [("skilledManpowerAvailability", Value.str "low")]

/-! ## General lemmas about the embedding -/

theorem except_bind_ok {α β : Type} (a : α) (f : α → Except String β) :
    (Except.ok a >>= f) = f a := rfl

theorem except_bind_err {α β : Type} (e : String) (f : α → Except String β) :
    ((Except.error e : Except String α) >>= f) = Except.error e := rfl

theorem eIsError_bind_left {α β : Type} {x : Except String α} (f : α → Except String β)
    (h : eIsError x = true) : eIsError (x >>= f) = true := by
  cases x with
  | ok a => simp [eIsError] at h
  | error e => rfl

theorem eIsError_bind_right {α β : Type} {x : Except String α} {f : α → Except String β}
    (h : ∀ a, eIsError (f a) = true) : eIsError (x >>= f) = true := by
  cases x with
  | ok a => exact h a
  | error e => rfl

theorem bankersRound_nonneg {q : ℚ} (h : 0 ≤ q) : 0 ≤ bankersRound q := by
  have h0 : (0 : ℤ) ≤ ⌊q⌋ := Int.floor_nonneg.mpr h
  unfold bankersRound
  split_ifs <;> omega

theorem bankersRound_le {q : ℚ} {n : ℤ} (h : q ≤ (n : ℚ)) : bankersRound q ≤ n := by
  have hfl : ⌊q⌋ ≤ n := by
    have h1 : ⌊q⌋ ≤ ⌊(n : ℚ)⌋ := Int.floor_mono h
    simpa using h1
  have hq : (⌊q⌋ : ℚ) ≤ q := Int.floor_le q
  unfold bankersRound
  split_ifs with h1 h2 h3
  · exact hfl
  · have hlt : (⌊q⌋ : ℚ) < (n : ℚ) := by linarith
    have hint : ⌊q⌋ < n := by exact_mod_cast hlt
    omega
  · exact hfl
  · have hr : q - (⌊q⌋ : ℚ) = 1/2 := le_antisymm (not_lt.mp h2) (not_lt.mp h1)
    have hlt : (⌊q⌋ : ℚ) < (n : ℚ) := by linarith
    have hint : ⌊q⌋ < n := by exact_mod_cast hlt
    omega

theorem pyRound1_nonneg {q : ℚ} (h : 0 ≤ q) : 0 ≤ pyRound1 q := by
  unfold pyRound1
  have h0 : (0 : ℤ) ≤ bankersRound (10 * q) := bankersRound_nonneg (by linarith)
  have h1 : (0 : ℚ) ≤ ((bankersRound (10 * q) : ℤ) : ℚ) := by exact_mod_cast h0
  exact div_nonneg h1 (by norm_num)

theorem pyRound1_le_int {q : ℚ} {n : ℤ} (h : q ≤ (n : ℚ)) : pyRound1 q ≤ (n : ℚ) := by
  unfold pyRound1
  have hb : bankersRound (10 * q) ≤ 10 * n := by
    apply bankersRound_le
    push_cast
    linarith
  have hc : ((bankersRound (10 * q) : ℤ) : ℚ) ≤ ((10 * n : ℤ) : ℚ) := by exact_mod_cast hb
  rw [div_le_iff₀ (by norm_num : (0 : ℚ) < 10)]
  push_cast at hc ⊢
  linarith

theorem pyMinQ_le_left (a b : ℚ) : pyMinQ a b ≤ a := by
  unfold pyMinQ; split <;> linarith

theorem le_pyMinQ {a b c : ℚ} (h1 : c ≤ a) (h2 : c ≤ b) : c ≤ pyMinQ a b := by
  unfold pyMinQ; split <;> linarith

theorem le_pyMaxQ_left (a b : ℚ) : a ≤ pyMaxQ a b := by
  unfold pyMaxQ; split <;> linarith

theorem pyMaxQ_le {a b c : ℚ} (h1 : a ≤ c) (h2 : b ≤ c) : pyMaxQ a b ≤ c := by
  unfold pyMaxQ; split <;> linarith

theorem tierGE_nonneg {v : Value} {t1 p1 t2 p2 t3 p3 b : ℚ}
    (hp1 : 0 ≤ p1) (hp2 : 0 ≤ p2) (hp3 : 0 ≤ p3)
    (h : tierGE v t1 p1 t2 p2 t3 p3 = Except.ok b) : 0 ≤ b := by
  unfold tierGE at h
  cases hv : asNum v with
  | error e => rw [hv, except_bind_err] at h; exact absurd h (by simp)
  | ok q =>
      rw [hv, except_bind_ok] at h
      simp only [Except.ok.injEq] at h
      subst h
      split_ifs <;> first | assumption | norm_num

theorem tierLE_nonneg {v : Value} {t1 p1 t2 p2 b : ℚ}
    (hp1 : 0 ≤ p1) (hp2 : 0 ≤ p2)
    (h : tierLE v t1 p1 t2 p2 = Except.ok b) : 0 ≤ b := by
  unfold tierLE at h
  cases hv : asNum v with
  | error e => rw [hv, except_bind_err] at h; exact absurd h (by simp)
  | ok q =>
      rw [hv, except_bind_ok] at h
      simp only [Except.ok.injEq] at h
      subst h
      split_ifs <;> first | assumption | norm_num

/-- C6: for every input feature mapping, whenever either assessor variant
computes a confidence score the score lies in the closed interval [0, 100];
and on the empty mapping (zero completeness) the score is the quality/bonus
contribution alone and still non-negative: 5 points for the basic variant
(the historical-delay bonus fires on the default 0) and 20 points for the
production variant (env-risk and historical-delay defaults both score). -/
theorem C6_confidence_score_in_range :
    (∀ (features : Dict) (q : ℚ), calculate_confidence features = Except.ok q →
      0 ≤ q ∧ q ≤ 100) ∧
    (∀ (features : Dict) (q : ℚ), calculate_production_confidence features = Except.ok q →
      0 ≤ q ∧ q ≤ 100) ∧
    calculate_confidence [] = Except.ok 5 ∧
    calculate_production_confidence [] = Except.ok 20 := by
  refine ⟨?_, ?_, by with_unfolding_all decide, by with_unfolding_all decide⟩
  · intro features q h
    unfold calculate_confidence at h
    cases h1 : pyGTnum (dgetD features "Vendor_Reliability" (Value.num 0)) (8/10) with
    | error e => rw [h1, except_bind_err] at h; exact absurd h (by simp)
    | ok b1 =>
    rw [h1, except_bind_ok] at h
    cases h2 : pyGTnum (dgetD features "Material_Availability_Index" (Value.num 0)) (8/10) with
    | error e => rw [h2, except_bind_err] at h; exact absurd h (by simp)
    | ok b2 =>
    rw [h2, except_bind_ok] at h
    cases h3 : pyLTnum (dgetD features "Historical_Delay_Count" (Value.num 0)) 3 with
    | error e => rw [h3, except_bind_err] at h; exact absurd h (by simp)
    | ok b3 =>
    rw [h3, except_bind_ok] at h
    simp only [Except.ok.injEq] at h
    subst h
    have hbase : (0 : ℚ) ≤
        ((key_features.filter (presentNotNone features)).length : ℚ) /
          (key_features.length : ℚ) * 100 := by positivity
    have ha1 : (0 : ℚ) ≤ (if b1 then 5 else 0) := by split <;> norm_num
    have ha2 : (0 : ℚ) ≤ (if b2 then 5 else 0) := by split <;> norm_num
    have ha3 : (0 : ℚ) ≤ (if b3 then 5 else 0) := by split <;> norm_num
    constructor
    · exact pyRound1_nonneg (le_pyMinQ (by norm_num) (by linarith))
    · have h100 := pyRound1_le_int (q :=
        pyMinQ 100 (((key_features.filter (presentNotNone features)).length : ℚ) /
          (key_features.length : ℚ) * 100 +
          ((if b1 then 5 else 0) + (if b2 then 5 else 0) + (if b3 then 5 else 0))))
        (n := 100) (by push_cast; exact pyMinQ_le_left _ _)
      exact_mod_cast h100
  · intro features q h
    unfold calculate_production_confidence at h
    cases h1 : tierGE (dgetD features "vendorReliability" (Value.num 0)) (8/10) 15 (6/10) 10
        (4/10) 5 with
    | error e => rw [h1, except_bind_err] at h; exact absurd h (by simp)
    | ok q1 =>
    rw [h1, except_bind_ok] at h
    cases h2 : tierGE (dgetD features "materialAvailability" (Value.num 0)) (8/10) 15 (6/10) 10
        (4/10) 5 with
    | error e => rw [h2, except_bind_err] at h; exact absurd h (by simp)
    | ok q2 =>
    rw [h2, except_bind_ok] at h
    cases h3 : tierLE (dgetD features "envRisk" (Value.num (3/10))) (3/10) 10 (5/10) 5 with
    | error e => rw [h3, except_bind_err] at h; exact absurd h (by simp)
    | ok q3 =>
    rw [h3, except_bind_ok] at h
    cases h4 : tierLE (dgetD features "historicalDelay" (Value.num 1)) 2 10 5 5 with
    | error e => rw [h4, except_bind_err] at h; exact absurd h (by simp)
    | ok q4 =>
    rw [h4, except_bind_ok] at h
    simp only [Except.ok.injEq] at h
    subst h
    have hq1 : 0 ≤ q1 := tierGE_nonneg (by norm_num) (by norm_num) (by norm_num) h1
    have hq2 : 0 ≤ q2 := tierGE_nonneg (by norm_num) (by norm_num) (by norm_num) h2
    have hq3 : 0 ≤ q3 := tierLE_nonneg (by norm_num) (by norm_num) h3
    have hq4 : 0 ≤ q4 := tierLE_nonneg (by norm_num) (by norm_num) h4
    have hcomp : (0 : ℚ) ≤
        ((required_features_prod.filter (presentNotNone features)).length : ℚ) /
          (required_features_prod.length : ℚ) * 40 := by positivity
    have hgeo : (0 : ℚ) ≤ geo_bonus features := by
      unfold geo_bonus; split <;> norm_num
    constructor
    · exact pyRound1_nonneg (le_pyMinQ (by norm_num) (by linarith))
    · have h100 := pyRound1_le_int (q :=
        pyMinQ 100 (((required_features_prod.filter (presentNotNone features)).length : ℚ) /
          (required_features_prod.length : ℚ) * 40 + (q1 + q2 + q3 + q4) +
          geo_bonus features))
        (n := 100) (by push_cast; exact pyMinQ_le_left _ _)
      exact_mod_cast h100

/-- Witness for C6 at the empty feature mapping. -/
theorem C6_confidence_score_in_range_witness : 0 ≤ (5 : ℚ) ∧ (5 : ℚ) ≤ 100 :=
  C6_confidence_score_in_range.1 [] 5 (by with_unfolding_all decide)

theorem overrun_points_mono {a b : ℚ} (h : a ≤ b) :
    overrun_points a ≤ overrun_points b := by
  unfold overrun_points
  split_ifs <;> first | omega | (exfalso; linarith)

theorem risk_score_mono {a b d : ℚ} (h : a ≤ b) :
    risk_score a d ≤ risk_score b d := by
  unfold risk_score
  have := overrun_points_mono h
  omega

theorem level_rank_risk_level (c d : ℚ) :
    level_rank (risk_level c d) =
      if 5 ≤ risk_score c d then 2 else if 3 ≤ risk_score c d then 1 else 0 := by
  unfold risk_level level_rank
  split_ifs <;> simp_all

/-- C7: the basic-variant risk score is monotone in the cost-overrun
prediction — increasing cost_overrun_pct while holding delay_months fixed
never decreases the accumulated score, and hence never lowers the ordered
risk level (Low below Medium below High); and _assess_risk classifies a
numeric predictions dict exactly by that score. -/
theorem C7_risk_monotone_in_cost_overrun :
    ∀ (c1 c2 d : ℚ), c1 ≤ c2 →
      (risk_score c1 d ≤ risk_score c2 d ∧
        level_rank (risk_level c1 d) ≤ level_rank (risk_level c2 d)) ∧
      (∀ (c dm : ℚ),
        assess_risk [("cost_overrun_pct", Value.num c), ("delay_months", Value.num dm)] =
          Except.ok (risk_level c dm)) := by
  intro c1 c2 d h
  refine ⟨⟨risk_score_mono h, ?_⟩, ?_⟩
  · rw [level_rank_risk_level, level_rank_risk_level]
    have hs := risk_score_mono (d := d) h
    split_ifs <;> omega
  · intro c dm
    with_unfolding_all rfl

/-- Witness for C7 with the overrun prediction raised from 6 to 21. -/
theorem C7_risk_monotone_in_cost_overrun_witness :
    risk_score 6 0 ≤ risk_score 21 0 ∧
    level_rank (risk_level 6 0) ≤ level_rank (risk_level 21 0) :=
  (C7_risk_monotone_in_cost_overrun 6 21 0 (by norm_num)).1

theorem dget?_cons_ne {fs : Dict} {k0 k : String} {v : Value} (h : k0 ≠ k) :
    dget? ((k0, v) :: fs) k = dget? fs k := by
  simp [dget?, h]

theorem dgetD_cons_ne {fs : Dict} {k0 k : String} {v dflt : Value} (h : k0 ≠ k) :
    dgetD ((k0, v) :: fs) k dflt = dgetD fs k dflt := by
  simp [dgetD, dget?_cons_ne h]

theorem dgetD_cons_eq (fs : Dict) (k : String) (v dflt : Value) :
    dgetD ((k, v) :: fs) k dflt = v := by
  simp [dgetD, dget?]

theorem presentNotNone_cons_ne {fs : Dict} {k0 k : String} {v : Value} (h : k0 ≠ k) :
    presentNotNone ((k0, v) :: fs) k = presentNotNone fs k := by
  simp [presentNotNone, dget?_cons_ne h]

theorem calc_prod_conf_ext {fs1 fs2 : Dict}
    (hfilter : required_features_prod.filter (presentNotNone fs1) =
      required_features_prod.filter (presentNotNone fs2))
    (hv : dgetD fs1 "vendorReliability" (Value.num 0) =
      dgetD fs2 "vendorReliability" (Value.num 0))
    (hm : dgetD fs1 "materialAvailability" (Value.num 0) =
      dgetD fs2 "materialAvailability" (Value.num 0))
    (he : dgetD fs1 "envRisk" (Value.num (3/10)) = dgetD fs2 "envRisk" (Value.num (3/10)))
    (hh : dgetD fs1 "historicalDelay" (Value.num 1) = dgetD fs2 "historicalDelay" (Value.num 1))
    (hg : geo_bonus fs1 = geo_bonus fs2) :
    calculate_production_confidence fs1 = calculate_production_confidence fs2 := by
  unfold calculate_production_confidence
  rw [hfilter, hv, hm, he, hh, hg]

/-- C10: the production-variant 5-point geographic bonus requires both
latitude and longitude to be present and truthy.  Supplying latitude 0 is
indistinguishable from supplying None (no geographic data) for the whole
confidence computation; a 0 coordinate in either field forfeits the bonus;
and the bonus is awarded exactly when both coordinates are truthy. -/
theorem C10_geo_bonus_truthiness :
    (∀ features : Dict,
      calculate_production_confidence (("latitude", Value.num 0) :: features) =
        calculate_production_confidence (("latitude", Value.none) :: features) ∧
      calculate_production_confidence (("longitude", Value.num 0) :: features) =
        calculate_production_confidence (("longitude", Value.none) :: features)) ∧
    (∀ features : Dict,
      dgetD features "latitude" Value.none = Value.num 0 ∨
        dgetD features "longitude" Value.none = Value.num 0 →
      geo_bonus features = 0) ∧
    (∀ features : Dict, geo_bonus features = 5 ↔
      (dgetD features "latitude" Value.none).truthy = true ∧
      (dgetD features "longitude" Value.none).truthy = true) := by
  have htr0 : (Value.num 0).truthy = Value.none.truthy := by
    with_unfolding_all decide
  refine ⟨?_, ?_, ?_⟩
  · intro features
    constructor
    · apply calc_prod_conf_ext
      · apply List.filter_congr
        intro a ha
        fin_cases ha <;>
          rw [presentNotNone_cons_ne (by decide), presentNotNone_cons_ne (by decide)]
      · rw [dgetD_cons_ne (by decide), dgetD_cons_ne (by decide)]
      · rw [dgetD_cons_ne (by decide), dgetD_cons_ne (by decide)]
      · rw [dgetD_cons_ne (by decide), dgetD_cons_ne (by decide)]
      · rw [dgetD_cons_ne (by decide), dgetD_cons_ne (by decide)]
      · unfold geo_bonus
        rw [dgetD_cons_eq, dgetD_cons_eq, dgetD_cons_ne (by decide),
          dgetD_cons_ne (by decide), htr0]
    · apply calc_prod_conf_ext
      · apply List.filter_congr
        intro a ha
        fin_cases ha <;>
          rw [presentNotNone_cons_ne (by decide), presentNotNone_cons_ne (by decide)]
      · rw [dgetD_cons_ne (by decide), dgetD_cons_ne (by decide)]
      · rw [dgetD_cons_ne (by decide), dgetD_cons_ne (by decide)]
      · rw [dgetD_cons_ne (by decide), dgetD_cons_ne (by decide)]
      · rw [dgetD_cons_ne (by decide), dgetD_cons_ne (by decide)]
      · unfold geo_bonus
        rw [dgetD_cons_eq, dgetD_cons_eq, dgetD_cons_ne (by decide),
          dgetD_cons_ne (by decide), htr0]
  · intro features h
    unfold geo_bonus
    rcases h with h | h <;> rw [h]
    · rw [show (Value.num 0).truthy = false from by with_unfolding_all decide]
      simp
    · rw [show (Value.num 0).truthy = false from by with_unfolding_all decide]
      simp
  · intro features
    unfold geo_bonus
    cases ht1 : (dgetD features "latitude" Value.none).truthy <;>
      cases ht2 : (dgetD features "longitude" Value.none).truthy <;>
        simp [ht1, ht2]

/-- Witness for C10: a supplied zero latitude earns no geographic bonus. -/
theorem C10_geo_bonus_truthiness_witness :
    geo_bonus [("latitude", Value.num 0)] = 0 :=
  C10_geo_bonus_truthiness.2.1 [("latitude", Value.num 0)]
    (Or.inl (by with_unfolding_all decide))

/-- C2 counterexample: a canonical input with planned timeline 0 makes the
prediction-time cost-per-month computation raise ZeroDivisionError, and the
exception propagates out of predict on the production path — there is no
max(planned_timeline, 1) floor anywhere in the code. -/
theorem C2_counterexample :
    cost_per_planned_month [("plannedTimeline", Value.num 0)] =
      Except.error "ZeroDivisionError: float division by zero" ∧
    predict loadStub stOne "all" [("plannedTimeline", Value.num 0)] =
      Except.error "ZeroDivisionError: float division by zero" := by
  with_unfolding_all decide

/-- C2 (amended): the prediction-time cost-per-month divides by the planned
timeline exactly as given, with no floor: a present planned timeline of 0
raises ZeroDivisionError inside the production feature build and hence out
of predict whenever the production branch is taken, while an absent planned
timeline is defaulted to 24.0 and the division is total there. -/
theorem C2_cost_per_month_no_floor :
    (∀ features : Dict, dget? features "plannedTimeline" = Option.some (Value.num 0) →
      eIsError (cost_per_planned_month features) = true ∧
      eIsError (buildProdRow features) = true) ∧
    (∀ (features : Dict) (b : ℚ),
      dget? features "plannedTimeline" = Option.none →
      dget? features "baseCost" = Option.some (Value.num b) →
      cost_per_planned_month features = Except.ok (b / 24)) ∧
    (∀ (L : MLState → Except String MLState) (st : MLState) (pt : String) (features : Dict),
      st.production_models_loaded = true → 0 < st.production_pipelines.length →
      eIsError (buildProdRow features) = true →
      eIsError (predict L st pt features) = true) := by
  refine ⟨?_, ?_, ?_⟩
  · intro features h
    have hget : dgetD features "plannedTimeline" (Value.num 24) = Value.num 0 := by
      simp [dgetD, h]
    have hcp : eIsError (cost_per_planned_month features) = true := by
      unfold cost_per_planned_month
      rw [hget]
      cases hb : pyFloat (dgetD features "baseCost" (Value.num 100)) with
      | error e => rfl
      | ok b => with_unfolding_all rfl
    refine ⟨hcp, ?_⟩
    simp only [buildProdRow]
    iterate 14 (apply eIsError_bind_right; intro _)
    exact eIsError_bind_left _ hcp
  · intro features b h1 h2
    unfold cost_per_planned_month
    rw [show dgetD features "baseCost" (Value.num 100) = Value.num b from by simp [dgetD, h2],
      show dgetD features "plannedTimeline" (Value.num 24) = Value.num 24 from by
        simp [dgetD, h1],
      show pyFloat (Value.num b) = Except.ok b from rfl, except_bind_ok,
      show pyFloat (Value.num 24) = Except.ok 24 from rfl, except_bind_ok]
    unfold pyDiv
    rw [if_neg (by norm_num)]
  · intro L st pt features h1 h2 h3
    unfold predict
    rw [if_pos (by rw [h1]; simpa using h2)]
    unfold production_branch
    exact eIsError_bind_left _ h3

/-- Witness for C2 at the concrete zero-timeline input. -/
theorem C2_cost_per_month_no_floor_witness :
    eIsError (cost_per_planned_month [("plannedTimeline", Value.num 0)]) = true ∧
    eIsError (buildProdRow [("plannedTimeline", Value.num 0)]) = true :=
  C2_cost_per_month_no_floor.1 [("plannedTimeline", Value.num 0)]
    (by with_unfolding_all decide)

/-- C5 counterexample: a non-numeric string for baseCost makes the float
coercion raise ValueError out of predict — the field is not replaced by its
default and normalization of that value does raise. -/
theorem C5_counterexample :
    predict loadStub stOne "all" [("baseCost", Value.str "abc")] =
      Except.error "ValueError: could not convert string to float" ∧
    pyParseFloat "abc" = Option.none := by
  with_unfolding_all decide

/-- C5 (amended): the production-path feature construction coerces numbers
and numeric-looking strings (as parsed decimal literals) to float; but a
field value on which coercion fails raises ValueError out of the feature
build instead of being replaced by the field default.  Upstream,
predict_project_outcomes then substitutes the entire rule-based fallback
result rather than defaulting the single field. -/
theorem C5_numeric_coercion :
    (∀ q : ℚ, pyFloat (Value.num q) = Except.ok q) ∧
    (∀ (s : String) (q : ℚ), pyParseFloat s = Option.some q →
      pyFloat (Value.str s) = Except.ok q) ∧
    ((buildProdRow [("baseCost", Value.str "150")]).map ProdRow.Base_Cost_Cr =
        Except.ok 150 ∧
      (buildProdRow [("baseCost", Value.str "150")]).map ProdRow.Cost_per_planned_month =
        Except.ok (150 / 24)) ∧
    (∀ (features : Dict) (s : String),
      pyParseFloat s = Option.none →
      dget? features "baseCost" = Option.some (Value.str s) →
      eIsError (buildProdRow features) = true) := by
  refine ⟨fun q => rfl, ?_, by constructor <;> with_unfolding_all decide, ?_⟩
  · intro s q h
    simp only [pyFloat, h]
  · intro features s hparse hget
    have hbc : pyFloat (dgetD features "baseCost" (Value.num 100)) =
        Except.error "ValueError: could not convert string to float" := by
      rw [show dgetD features "baseCost" (Value.num 100) = Value.str s from by
        simp [dgetD, hget]]
      simp only [pyFloat, hparse]
    simp only [buildProdRow]
    iterate 2 (apply eIsError_bind_right; intro _)
    apply eIsError_bind_left
    rw [hbc]
    rfl

/-- Witness for C5: a numeric string coerces, a non-numeric one raises. -/
theorem C5_numeric_coercion_witness :
    pyFloat (Value.str "150") = Except.ok 150 ∧
    eIsError (buildProdRow [("baseCost", Value.str "abc")]) = true :=
  ⟨C5_numeric_coercion.2.1 "150" 150 (by with_unfolding_all decide),
   C5_numeric_coercion.2.2.2 [("baseCost", Value.str "abc")] "abc"
     (by with_unfolding_all decide) (by with_unfolding_all decide)⟩

/-- C1 counterexample: loading with exactly one production artifact present
reaches a state where is_production_ready is false (fewer than two of the
three pipelines loaded), yet predict takes the production path — it returns
the raw output of the single loaded pipeline, not the fallback-branch
result. -/
theorem C1_counterexample :
    is_production_ready stOne = false ∧
    stOne.production_pipelines.length = 1 ∧
    predict loadStub stOne "all" [] = Except.ok [("cost_prediction", Value.num 7)] ∧
    predict loadStub stOne "all" [] ≠ fallback_branch loadStub stOne "all" [] := by
  with_unfolding_all decide

/-- C1 (amended): is_production_ready holds iff the production flag is set
and at least two pipelines are loaded, but predict never consults it — the
production branch is taken whenever the flag is set and at least one
pipeline is loaded; the fallback branch is taken only when the flag is off
or no pipeline is loaded. -/
theorem C1_predict_branch_selection :
    (∀ st : MLState, is_production_ready st = true ↔
      (st.production_models_loaded = true ∧ 2 ≤ st.production_pipelines.length)) ∧
    (∀ (L : MLState → Except String MLState) (st : MLState) (pt : String) (features : Dict),
      st.production_models_loaded = true → 0 < st.production_pipelines.length →
      predict L st pt features = production_branch st features) ∧
    (∀ (L : MLState → Except String MLState) (st : MLState) (pt : String) (features : Dict),
      st.production_models_loaded = false ∨ st.production_pipelines.length = 0 →
      predict L st pt features = fallback_branch L st pt features) := by
  refine ⟨?_, ?_, ?_⟩
  · intro st
    unfold is_production_ready
    simp
  · intro L st pt features h1 h2
    unfold predict
    rw [if_pos (by rw [h1]; simpa using h2)]
  · intro L st pt features h
    unfold predict
    rw [if_neg]
    rcases h with h | h <;> simp [h]

/-- Witness for C1: the single-pipeline state takes the production branch. -/
theorem C1_predict_branch_selection_witness :
    predict loadStub stOne "all" [] = production_branch stOne [] :=
  C1_predict_branch_selection.2.1 loadStub stOne "all" []
    (by with_unfolding_all decide) (by with_unfolding_all decide)

/-- C3 counterexample: with two loaded pipelines of which the second raises,
predict returns 0.0 for the failing target and the other prediction intact,
but the returned mapping contains neither risk_assessment nor
confidence_score — the production branch returns before they are added. -/
theorem C3_counterexample :
    predict loadStub stTwo "all" [] =
      Except.ok [("cost_prediction", Value.num 7), ("overrun_prediction", Value.num 0)] ∧
    resultHas (predict loadStub stTwo "all" []) "risk_assessment" = false ∧
    resultHas (predict loadStub stTwo "all" []) "confidence_score" = false := by
  with_unfolding_all decide

theorem production_loop_keys (pipes : List (String × Pipeline)) (row : ProdRow) :
    (production_loop pipes row).map Prod.fst = pipes.map Prod.fst := by
  induction pipes with
  | nil => rfl
  | cons q rest ih => simp [production_loop]

theorem dget?_eq_none_of_not_mem {d : Dict} {k : String} (h : k ∉ d.map Prod.fst) :
    dget? d k = Option.none := by
  induction d with
  | nil => rfl
  | cons q rest ih =>
      obtain ⟨k0, v0⟩ := q
      simp only [List.map_cons, List.mem_cons] at h
      push_neg at h
      unfold dget?
      rw [if_neg (Ne.symm h.1)]
      exact ih h.2

/-- C3 (amended): on the production path a single failing pipeline yields
0.0 for its own target only, every other pipeline result is passed through
unchanged — but the returned mapping never contains risk_assessment or
confidence_score: the production branch of predict returns the raw
per-target outputs only (those keys are added only on the fallback path). -/
theorem C3_production_fault_isolation :
    (∀ (pipes : List (String × Pipeline)) (row : ProdRow) (n : String) (p : Pipeline),
      (pipes.map Prod.fst).Nodup → (n, p) ∈ pipes →
      (∀ (v : ℚ) (vs : List ℚ), p row = Except.ok (v :: vs) →
        dget? (production_loop pipes row) n = Option.some (Value.num v)) ∧
      (∀ e : String, p row = Except.error e →
        dget? (production_loop pipes row) n = Option.some (Value.num 0))) ∧
    (∀ (st : MLState) (features : Dict),
      "risk_assessment" ∉ st.production_pipelines.map Prod.fst →
      resultHas (production_branch st features) "risk_assessment" = false) ∧
    (∀ (st : MLState) (features : Dict),
      "confidence_score" ∉ st.production_pipelines.map Prod.fst →
      resultHas (production_branch st features) "confidence_score" = false) := by
  have hkeys : ∀ (st : MLState) (features : Dict) (k : String),
      k ∉ st.production_pipelines.map Prod.fst →
      resultHas (production_branch st features) k = false := by
    intro st features k h
    unfold production_branch
    cases hb : buildProdRow features with
    | error e => rfl
    | ok row =>
        rw [except_bind_ok]
        show (dget? (production_loop st.production_pipelines row) k).isSome = false
        rw [dget?_eq_none_of_not_mem (by rw [production_loop_keys]; exact h)]
        rfl
  refine ⟨?_, fun st features h => hkeys st features _ h,
    fun st features h => hkeys st features _ h⟩
  intro pipes row n p
  induction pipes with
  | nil => intro _ hmem; cases hmem
  | cons q rest ih =>
      intro hnd hmem
      obtain ⟨k0, p0⟩ := q
      rcases List.mem_cons.mp hmem with heq | hmem2
      · cases heq
        constructor
        · intro v vs hv
          simp [production_loop, dget?, hv]
        · intro e he
          simp [production_loop, dget?, he]
      · have hk0 : k0 ≠ n := by
          intro hc
          subst hc
          rw [List.map_cons, List.nodup_cons] at hnd
          exact hnd.1 (List.mem_map.mpr ⟨(k0, p), hmem2, rfl⟩)
        have ihr := ih (by rw [List.map_cons, List.nodup_cons] at hnd; exact hnd.2) hmem2
        constructor
        · intro v vs hv
          have hres := ihr.1 v vs hv
          simpa [production_loop, dget?, hk0] using hres
        · intro e he
          have hres := ihr.2 e he
          simpa [production_loop, dget?, hk0] using hres

/-- Witness for C3: the raising pipeline in the two-pipeline fixture is
isolated to a 0.0 for its own target. -/
theorem C3_production_fault_isolation_witness :
    dget? (production_loop [("cost_prediction", pipeConst7), ("overrun_prediction", pipeRaise)]
      rowFix) "overrun_prediction" = Option.some (Value.num 0) :=
  (C3_production_fault_isolation.1
    [("cost_prediction", pipeConst7), ("overrun_prediction", pipeRaise)] rowFix
    "overrun_prediction" pipeRaise (by decide)
    (List.mem_cons_of_mem _ (List.mem_cons_self _ _))).2
    "RuntimeError: pipeline failure" rfl

/-- C8 counterexample: the normalizer applied to an already-canonical vector
(the normalized image of a request with base cost 150) drops the
Base_Cost_Cr binding entirely, so the result differs from the input as a
mapping — normalization is not idempotent. -/
theorem C8_counterexample :
    dget? (convert_to_ml_format (convert_to_ml_format [("baseEstimatedCost", Value.num 150)]))
      "Base_Cost_Cr" = Option.none ∧
    dget? (convert_to_ml_format [("baseEstimatedCost", Value.num 150)]) "Base_Cost_Cr" =
      Option.some (Value.num 150) ∧
    convert_to_ml_format (convert_to_ml_format [("baseEstimatedCost", Value.num 150)]) ≠
      convert_to_ml_format [("baseEstimatedCost", Value.num 150)] := by
  with_unfolding_all decide

theorem dget?_dset_ne {d : Dict} {k2 k : String} {v : Value} (h : k2 ≠ k) :
    dget? (dset d k2 v) k = dget? d k := by
  induction d with
  | nil => simp [dset, dget?, h]
  | cons q rest ih =>
      obtain ⟨k0, v0⟩ := q
      by_cases h0 : k0 = k2
      · subst h0
        simp [dset, dget?, h]
      · unfold dset
        rw [if_neg h0]
        unfold dget?
        by_cases hk : k0 = k
        · rw [if_pos hk, if_pos hk]
        · rw [if_neg hk, if_neg hk]
          exact ih

theorem convert_fold_preserves_none (pd : Dict) (k : String) :
    ∀ (l : List (String × String)) (acc : Dict),
      (∀ kv ∈ l, kv.2 ≠ k) → dget? acc k = Option.none →
      dget? (l.foldl (convert_step pd) acc) k = Option.none := by
  intro l
  induction l with
  | nil => intro acc _ hacc; exact hacc
  | cons kv rest ih =>
      intro acc hl hacc
      rw [List.foldl_cons]
      apply ih
      · intro x hx; exact hl x (List.mem_cons_of_mem _ hx)
      · unfold convert_step
        cases dget? pd kv.1 with
        | none => exact hacc
        | some v =>
            rw [dget?_dset_ne (hl kv (List.mem_cons_self _ _))]
            exact hacc

theorem default_fold_preserves_none (k : String) :
    ∀ (l : List (String × Value)) (acc : Dict),
      (∀ kv ∈ l, kv.1 ≠ k) → dget? acc k = Option.none →
      dget? (l.foldl default_step acc) k = Option.none := by
  intro l
  induction l with
  | nil => intro acc _ hacc; exact hacc
  | cons kv rest ih =>
      intro acc hl hacc
      rw [List.foldl_cons]
      apply ih
      · intro x hx; exact hl x (List.mem_cons_of_mem _ hx)
      · unfold default_step
        split
        · exact hacc
        · rw [dget?_dset_ne (hl kv (List.mem_cons_self _ _))]
          exact hacc

theorem convert_no_frontend_keys (d : Dict) (k : String)
    (hk : k ∈ field_mapping.map Prod.fst) :
    dget? (convert_to_ml_format d) k = Option.none := by
  unfold convert_to_ml_format
  apply default_fold_preserves_none
  · intro kv hkv
    fin_cases hk <;> fin_cases hkv <;> decide
  · apply convert_fold_preserves_none
    · intro kv hkv
      fin_cases hk <;> fin_cases hkv <;> decide
    · rfl

/-- C8 (amended): the normalizer is a one-way frontend-to-canonical
translation, not idempotent.  On any input with no frontend-convention keys
— in particular on any already-canonical vector — it discards every field
and returns exactly the seven-field defaults dict; its image never contains
a frontend key, so applying it twice always yields the defaults dict, which
is its only fixed point of interest. -/
theorem C8_normalizer_not_idempotent :
    (∀ d : Dict, (∀ k ∈ field_mapping.map Prod.fst, dget? d k = Option.none) →
      convert_to_ml_format d = ml_defaults) ∧
    (∀ (d : Dict) (k : String), k ∈ field_mapping.map Prod.fst →
      dget? (convert_to_ml_format d) k = Option.none) ∧
    (∀ d : Dict, convert_to_ml_format (convert_to_ml_format d) = ml_defaults) ∧
    convert_to_ml_format ml_defaults = ml_defaults := by
  have key1 : ∀ d : Dict, (∀ k ∈ field_mapping.map Prod.fst, dget? d k = Option.none) →
      convert_to_ml_format d = ml_defaults := by
    intro d h
    have h1 := h "projectType" (by decide)
    have h2 := h "terrainType" (by decide)
    have h3 := h "baseEstimatedCost" (by decide)
    have h4 := h "steelPriceIndex" (by decide)
    have h5 := h "cementPriceIndex" (by decide)
    have h6 := h "labourWageRate" (by decide)
    have h7 := h "regulatoryDelayEstimate" (by decide)
    have h8 := h "historicalDelayPattern" (by decide)
    have h9 := h "annualRainfall" (by decide)
    have h10 := h "vendorReliabilityScore" (by decide)
    have h11 := h "materialAvailabilityIndex" (by decide)
    have h12 := h "demandSupplyPressure" (by decide)
    have h13 := h "skilledManpowerAvailability" (by decide)
    have h14 := h "plannedTimelineMonths" (by decide)
    unfold convert_to_ml_format
    simp only [field_mapping, List.foldl_cons, List.foldl_nil, convert_step,
      h1, h2, h3, h4, h5, h6, h7, h8, h9, h10, h11, h12, h13, h14]
    with_unfolding_all decide
  refine ⟨key1, convert_no_frontend_keys, ?_, key1 ml_defaults (by decide)⟩
  intro d
  exact key1 (convert_to_ml_format d) (fun k hk => convert_no_frontend_keys d k hk)

/-- Witness for C8 at the empty request. -/
theorem C8_normalizer_not_idempotent_witness :
    convert_to_ml_format [] = ml_defaults :=
  C8_normalizer_not_idempotent.1 [] (by decide)

/-- C9 counterexample: on a request whose vendor reliability is a
non-numeric string the ML path raises, but the rule-based fallback reads
the same field arithmetically and raises too, so the exception propagates
out of predict_project_outcomes instead of a fallback result. -/
theorem C9_counterexample :
    eIsError (try_predict_outcomes loadStub stOne "2026-01-01T00:00:00" pdBadVendor) = true ∧
    eIsError (predict_project_outcomes loadStub stOne "2026-01-01T00:00:00" pdBadVendor) =
      true := by
  with_unfolding_all decide

/-- C9 (amended): whenever the try block of predict_project_outcomes raises,
the rule-based fallback result is substituted; provided the fields the
fallback itself reads arithmetically (vendor reliability, base cost,
planned timeline) are numeric where present, the returned result satisfies
the documented fallback invariants: cost_overrun_probability in [0, 50],
predicted_delay_months non-negative, confidence_score exactly 60.0 and
model_version fallback-1.0.  When a fallback-read field is a non-numeric
string the fallback raises and the exception propagates to the caller. -/
theorem C9_fallback_on_ml_failure :
    ∀ (L : MLState → Except String MLState) (st : MLState) (now : String) (pd : Dict),
      eIsError (try_predict_outcomes L st now pd) = true →
      NumericOrAbsent pd "vendorReliabilityScore" →
      NumericOrAbsent pd "baseEstimatedCost" →
      NumericOrAbsent pd "plannedTimelineMonths" →
      predict_project_outcomes L st now pd = fallback_predictions now pd ∧
      ∃ r : PResult, predict_project_outcomes L st now pd = Except.ok r ∧
        r.model_version = "fallback-1.0" ∧
        r.confidence_score = Value.num 60 ∧
        0 ≤ r.cost_overrun_probability ∧ r.cost_overrun_probability ≤ 50 ∧
        0 ≤ r.predicted_delay_months := by
  intro L st now pd herr hv hb hp
  have heq : predict_project_outcomes L st now pd = fallback_predictions now pd := by
    unfold predict_project_outcomes
    cases htry : try_predict_outcomes L st now pd with
    | ok r => rw [htry] at herr; exact absurd herr (by simp [eIsError])
    | error e => rfl
  have hvnum : ∃ q, asNum (dgetD pd "vendorReliabilityScore" (Value.num (8/10))) =
      Except.ok q := by
    cases hg : dget? pd "vendorReliabilityScore" with
    | none => exact ⟨8/10, by simp [dgetD, hg, asNum]⟩
    | some v =>
        obtain ⟨q, rfl⟩ := hv v hg
        exact ⟨q, by simp [dgetD, hg, asNum]⟩
  have hbnum : ∃ q, asNum (dgetD pd "baseEstimatedCost" (Value.num 1000)) = Except.ok q := by
    cases hg : dget? pd "baseEstimatedCost" with
    | none => exact ⟨1000, by simp [dgetD, hg, asNum]⟩
    | some v =>
        obtain ⟨q, rfl⟩ := hb v hg
        exact ⟨q, by simp [dgetD, hg, asNum]⟩
  have hpnum : ∃ q, asNum (dgetD pd "plannedTimelineMonths" (Value.num 12)) =
      Except.ok q := by
    cases hg : dget? pd "plannedTimelineMonths" with
    | none => exact ⟨12, by simp [dgetD, hg, asNum]⟩
    | some v =>
        obtain ⟨q, rfl⟩ := hp v hg
        exact ⟨q, by simp [dgetD, hg, asNum]⟩
  obtain ⟨vq, hvq⟩ := hvnum
  obtain ⟨bq, hbq⟩ := hbnum
  obtain ⟨pq, hpq⟩ := hpnum
  refine ⟨heq, ?_⟩
  rw [heq]
  simp only [fallback_predictions]
  rw [hvq, except_bind_ok, hbq, except_bind_ok, hpq, except_bind_ok]
  refine ⟨_, rfl, rfl, rfl, ?_, ?_, ?_⟩
  · exact pyRound1_nonneg (le_pyMaxQ_left _ _)
  · have h50 := pyRound1_le_int
      (q := pyMaxQ 0 (pyMinQ 50 ((terrain_multiplier (dgetD pd "terrainType"
        (Value.str "plains")) - 1) * 100 + (2 - vq - 1) * 25)))
      (n := 50) (by push_cast; exact pyMaxQ_le (by norm_num) (pyMinQ_le_left _ _))
    exact_mod_cast h50
  · exact pyRound1_nonneg (le_pyMaxQ_left _ _)

/-- Witness for C9: an ML-path failure on a request whose fallback-read
fields are all absent returns the fallback result with its invariants. -/
theorem C9_fallback_on_ml_failure_witness :
    predict_project_outcomes loadStub stOne "T" pdManpowerStr =
      fallback_predictions "T" pdManpowerStr ∧
    ∃ r : PResult, predict_project_outcomes loadStub stOne "T" pdManpowerStr = Except.ok r ∧
      r.model_version = "fallback-1.0" ∧
      r.confidence_score = Value.num 60 ∧
      0 ≤ r.cost_overrun_probability ∧ r.cost_overrun_probability ≤ 50 ∧
      0 ≤ r.predicted_delay_months :=
  C9_fallback_on_ml_failure loadStub stOne "T" pdManpowerStr
    (by with_unfolding_all decide)
    (by intro v h; simp [pdManpowerStr, dget?] at h)
    (by intro v h; simp [pdManpowerStr, dget?] at h)
    (by intro v h; simp [pdManpowerStr, dget?] at h)

/-- C4 counterexample: a retrain whose model fit raises leaves the registry
mutated — prepare_features has already refit the encoders in place and
overwritten feature_columns — and the exception propagates instead of a
boolean false being returned. -/
theorem C4_counterexample :
    (retrain_model fitScalerId tbFail saveOk st0reg "cost_overrun" dfFix).2 =
      Except.error "ValueError: Input contains NaN" ∧
    (retrain_model fitScalerId tbFail saveOk st0reg "cost_overrun" dfFix).1.encoders ≠
      st0reg.encoders ∧
    (retrain_model fitScalerId tbFail saveOk st0reg "cost_overrun" dfFix).1.feature_columns =
      training_feature_columns ∧
    st0reg.feature_columns = [] ∧
    st0reg.encoders = [] := by
  with_unfolding_all decide

theorem encode_categoricals_state :
    ∀ (l : List String) (st : MLState) (x : Frame), ∃ encs,
      (encode_categoricals st x l).1 = { st with encoders := encs } := by
  intro l
  induction l with
  | nil => intro st x; exact ⟨st.encoders, rfl⟩
  | cons c rest ih =>
      intro st x
      unfold encode_categoricals
      split
      · exact ih st x
      · split
        · split
          · exact ⟨_, rfl⟩
          · split
            · exact ⟨_, rfl⟩
            · exact ih _ _
        · split
          · exact ⟨_, rfl⟩
          · exact ih _ _

theorem prepare_features_state (fs : Frame → Scal) (st : MLState) (df : Frame) :
    ∃ encs scals,
      (prepare_features fs st df).1 =
        { st with
            feature_columns := training_feature_columns,
            encoders := encs, scalers := scals } := by
  unfold prepare_features
  split
  · exact ⟨st.encoders, st.scalers, rfl⟩
  · rename_i x0 _
    dsimp only
    split <;> rename_i st2 res heq
    · obtain ⟨encs, h⟩ := encode_categoricals_state categorical_columns
        { st with feature_columns := training_feature_columns } x0
      rw [heq] at h
      exact ⟨encs, st.scalers, h⟩
    · obtain ⟨encs, h⟩ := encode_categoricals_state categorical_columns
        { st with feature_columns := training_feature_columns } x0
      rw [heq] at h
      subst h
      split
      · split
        · exact ⟨encs, _, rfl⟩
        · exact ⟨encs, _, rfl⟩
      · split
        · exact ⟨encs, _, rfl⟩
        · exact ⟨encs, _, rfl⟩

/-- C4 (amended): a retrain whose model re-fit raises propagates the
exception (it does not return false), leaving the model estimators
untouched but not the rest of the registry: prepare_features has already
overwritten feature_columns (and, when previously unfitted, the encoders
and scaler in place) before the failure, so the observable registry state
is the partially mutated one, not the prior state. -/
theorem C4_retrain_failure_behaviour :
    (∀ (fs : Frame → Scal) (tb : Frame → List PCell → Except String ModelFn)
        (save : MLState → Except String Unit) (st : MLState) (name target : String)
        (df : Frame) (st1 : MLState) (x : Frame) (y : List PCell) (e : String),
      prepare_features fs st df = (st1, Except.ok x) →
      model_configs.lookup name = Option.some target →
      fget df target = Except.ok y →
      tb x y = Except.error e →
      retrain_model fs tb save st name df = (st1, Except.error e) ∧
      st1.models = st.models ∧ st1.feature_columns = training_feature_columns) ∧
    (∀ (fs : Frame → Scal) (st : MLState) (df : Frame),
      (prepare_features fs st df).1.models = st.models ∧
      (prepare_features fs st df).1.feature_columns = training_feature_columns) := by
  constructor
  · intro fs tb save st name target df st1 x y e hprep hlk hy htb
    obtain ⟨encs, scals, hstate⟩ := prepare_features_state fs st df
    simp only [hprep] at hstate
    refine ⟨?_, ?_, ?_⟩
    · simp only [retrain_model, hprep, hlk, hy, htb]
    · rw [hstate]
    · rw [hstate]
  · intro fs st df
    obtain ⟨encs, scals, hstate⟩ := prepare_features_state fs st df
    rw [hstate]
    exact ⟨rfl, rfl⟩

/-- Witness for C4: the concrete failing retrain on the fixture registry. -/
theorem C4_retrain_failure_behaviour_witness :
    retrain_model fitScalerId tbFail saveOk st0reg "cost_overrun" dfFix =
      ((prepare_features fitScalerId st0reg dfFix).1,
        Except.error "ValueError: Input contains NaN") ∧
    (prepare_features fitScalerId st0reg dfFix).1.models = st0reg.models ∧
    (prepare_features fitScalerId st0reg dfFix).1.feature_columns =
      training_feature_columns :=
  C4_retrain_failure_behaviour.1 fitScalerId tbFail saveOk st0reg "cost_overrun"
    "Overrun_pct" dfFix (prepare_features fitScalerId st0reg dfFix).1 xFix
    [PCell.val (Value.num 10)] "ValueError: Input contains NaN"
    (by with_unfolding_all rfl) (by decide) (by with_unfolding_all decide) rfl

end SysCode
